import Mathlib

/-!
Verification of the aos_core_sm_cpp Service Manager against its
natural-language specification.  The development shallowly embeds the
relevant C++ source (`src/runner/runner.cpp`, `src/config/config.cpp`,
`src/utils/convert.cpp`) into Lean: `std::string` becomes `List Char`,
machine integers become `Int`/`Nat` with explicit `% 2^w` at the casts,
fallible code returns `Except`, and the Runner's shared mutable state
becomes explicit state passing with supervisor responses supplied as
oracle inputs.
-/

set_option maxRecDepth 4000

namespace AosSm

/-- C++ `std::string` is embedded as a list of characters. -/
abbrev Str := List Char

/-- Aos `Error` values (`aos/common/tools/error.hpp`), reduced to the error
codes the embedded code distinguishes.  `eRuntime c` is an error built from
an OS exit/errno code (`Error(int, msg)`); `eOther` tags further distinct
error values supplied by oracles. -/
inductive AosErr where
  | eNone
  | eNotFound
  | eInvalidArgument
  | eFailed
  | eRuntime (code : Int)
  | eOther (n : Nat)
  deriving DecidableEq, Repr

/-- `Error::IsNone()`. -/
def AosErr.isNone : AosErr → Bool
  | .eNone => true
  | _ => false

/-! ## Unit naming (`Runner::CreateSystemdUnitName` / `Runner::CreateInstanceID`) -/

/-- The parsing prefix `"aos-service@"` from `Runner::CreateInstanceID`. -/
def unitNamePfx : Str := "aos-service@".toList

/-- The parsing suffix `".service"` from `Runner::CreateInstanceID`. -/
def unitNameSfx : Str := ".service".toList

/-- Modelled from the spec: the constant `cSystemdUnitNameTemplate` is declared
in `runner.hpp`, which is not under `src/`; the spec fixes the unit-name
template to `aos-service@<instanceID>.service`.  `Runner::CreateSystemdUnitName`
instantiates that template with the instance ID. -/
def CreateSystemdUnitName (instanceID : Str) : Str :=
  unitNamePfx ++ instanceID ++ unitNameSfx

/-- `Runner::CreateInstanceID`: strips the `aos-service@` prefix and the
`.service` suffix (`substr(prefix.length, length - prefix.length -
suffix.length)`); any other input throws `InvalidArgument`
(`AOS_ERROR_THROW`), embedded as `Except.error`. -/
def CreateInstanceID (unitname : Str) : Except AosErr Str :=
  if unitNamePfx.isPrefixOf unitname ∧ unitNameSfx.isSuffixOf unitname then
    .ok ((unitname.drop unitNamePfx.length).take
      (unitname.length - unitNamePfx.length - unitNameSfx.length))
  else
    .error .eInvalidArgument

/-- C1: `CreateSystemdUnitName` produces exactly `aos-service@<s>.service`, and
`CreateInstanceID` is its left inverse: the round trip returns the instance ID
unchanged for every instance ID, while any input that does not both start with
`aos-service@` and end with `.service` yields `InvalidArgument`. -/
theorem C1_unit_name_round_trip :
    (∀ s : Str, CreateSystemdUnitName s = "aos-service@".toList ++ s ++ ".service".toList ∧
      CreateInstanceID (CreateSystemdUnitName s) = .ok s) ∧
    (∀ u : Str, ¬(unitNamePfx <+: u ∧ unitNameSfx <:+ u) →
      CreateInstanceID u = .error .eInvalidArgument) := by
  constructor
  · intro s
    refine ⟨rfl, ?_⟩
    have h1 : unitNamePfx <+: CreateSystemdUnitName s :=
      ⟨s ++ unitNameSfx, by simp [CreateSystemdUnitName]⟩
    have h2 : unitNameSfx <:+ CreateSystemdUnitName s :=
      ⟨unitNamePfx ++ s, by simp [CreateSystemdUnitName]⟩
    unfold CreateInstanceID
    rw [if_pos ⟨List.isPrefixOf_iff_prefix.mpr h1, List.isSuffixOf_iff_suffix.mpr h2⟩]
    have hdrop : (CreateSystemdUnitName s).drop unitNamePfx.length = s ++ unitNameSfx := by
      simp [CreateSystemdUnitName, List.append_assoc, List.drop_left]
    have hlen : (CreateSystemdUnitName s).length - unitNamePfx.length - unitNameSfx.length
        = s.length := by
      simp [CreateSystemdUnitName, List.length_append]
    rw [hdrop, hlen, List.take_left]
  · intro u h
    unfold CreateInstanceID
    rw [if_neg]
    intro ⟨hp, hs⟩
    exact h ⟨List.isPrefixOf_iff_prefix.mp hp, List.isSuffixOf_iff_suffix.mp hs⟩

/-- Witness for C1 at concrete inputs: instance ID `svc1` survives the round
trip, and `garbage` is rejected with `InvalidArgument`. -/
theorem C1_unit_name_round_trip_witness :
    CreateInstanceID (CreateSystemdUnitName "svc1".toList) = .ok "svc1".toList ∧
    (¬(unitNamePfx <+: "garbage".toList ∧ unitNameSfx <:+ "garbage".toList) ∧
      CreateInstanceID "garbage".toList = .error .eInvalidArgument) :=
  ⟨(C1_unit_name_round_trip.1 "svc1".toList).2,
    by decide, C1_unit_name_round_trip.2 "garbage".toList (by decide)⟩

/-! ## Protobuf conversion (`src/utils/convert.cpp`) -/

/-- `static_cast<int64_t>` of a `uint64_t` value: two's-complement wraparound
at `2^64`. -/
def toInt64OfUInt64 (v : Nat) : Int :=
  if v % 2 ^ 64 < 2 ^ 63 then (v % 2 ^ 64 : Nat) else (v % 2 ^ 64 : Nat) - 2 ^ 64

/-- `static_cast<uint64_t>` of an `int64_t` value: reduction modulo `2^64`. -/
def toUInt64OfInt64 (i : Int) : Nat := (i % 2 ^ 64).toNat

/-- Domain `cloudprotocol::InstanceFilter`: all three fields optional,
`mInstance` a `uint64_t`. -/
structure InstanceFilter where
  mServiceID : Option Str
  mSubjectID : Option Str
  mInstance : Option Nat
  deriving DecidableEq, Repr

/-- Wire `servicemanager::v4::InstanceFilter`: strings default to empty, the
`instance` field (named `instanceNum` here because `instance` is a Lean
keyword) is an `int64`. -/
structure PBInstanceFilter where
  service_id : Str
  subject_id : Str
  instanceNum : Int
  deriving DecidableEq, Repr

/-- `ConvertToProto(const cloudprotocol::InstanceFilter&, ...)`: optional
strings are written only when present (proto default is the empty string);
`instance` is first set to `-1` and overwritten with the cast value when the
domain filter carries one. -/
def ConvertToProtoInstanceFilter (src : InstanceFilter) : PBInstanceFilter :=
  { service_id := src.mServiceID.getD []
    subject_id := src.mSubjectID.getD []
    instanceNum := match src.mInstance with
      | some v => toInt64OfUInt64 v
      | none => -1 }

/-- `ConvertToAos(const servicemanager::v4::InstanceFilter&)`: non-empty
strings become present values; `instance != -1` becomes a present
`uint64_t` value. -/
def ConvertToAosInstanceFilter (val : PBInstanceFilter) : InstanceFilter :=
  { mServiceID := if val.service_id ≠ [] then some val.service_id else none
    mSubjectID := if val.subject_id ≠ [] then some val.subject_id else none
    mInstance := if val.instanceNum ≠ -1 then some (toUInt64OfInt64 val.instanceNum)
      else none }

/-- Casting a `uint64_t` to `int64_t` and back is the identity below `2^64`. -/
theorem toUInt64_toInt64 (v : Nat) (h : v < 2 ^ 64) :
    toUInt64OfInt64 (toInt64OfUInt64 v) = v := by
  unfold toUInt64OfInt64 toInt64OfUInt64
  rw [Nat.mod_eq_of_lt h]
  split
  · omega
  · have : ((v : Int) - 2 ^ 64) % 2 ^ 64 = (v : Int) % 2 ^ 64 := by
      omega
    rw [this]
    omega

/-- The `int64` image of a `uint64` value is `-1` exactly for `2^64 - 1`. -/
theorem toInt64_eq_neg_one (v : Nat) :
    toInt64OfUInt64 v = -1 ↔ v % 2 ^ 64 = 2 ^ 64 - 1 := by
  unfold toInt64OfUInt64
  split <;> omega

/-- C8 wire timestamp type (`google::protobuf::Timestamp`): `int64` seconds,
`int32` nanos. -/
structure PBTimestamp where
  seconds : Int
  nanos : Int
  deriving DecidableEq, Repr

/-- `aos::Time` (external `aos/common/tools/time` collaborator), reduced to
the Unix second/nanosecond pair the conversions read and write. -/
structure Time where
  sec : Int
  nsec : Int
  deriving DecidableEq, Repr

/-- `Time::Unix(sec, nsec)`. -/
def Time.Unix (seconds nanos : Int) : Time := ⟨seconds, nanos⟩

/-- Modelled from the spec: an absent domain timestamp is represented by the
zero (default-constructed) `aos::Time`, whose wire encoding must carry
`seconds=0`. -/
def Time.zero : Time := ⟨0, 0⟩

/-- `ConvertToAos(const google::protobuf::Timestamp&)`: a present value is
produced only when `seconds() > 0`. -/
def ConvertToAosTimestamp (val : PBTimestamp) : Option Time :=
  if val.seconds > 0 then some (Time.Unix val.seconds val.nanos) else none

/-- `TimestampToPB`: writes `UnixTime()`'s seconds and nanoseconds. -/
def TimestampToPB (time : Time) : PBTimestamp := ⟨time.sec, time.nsec⟩

/-- C7 counterexample: the claim "ConvertToProto writes instance=-1 exactly
when the domain filter's instance is absent, and the instance field survives
the round trip for every domain filter" fails at the concrete filter whose
instance is the largest `uint64`, `2^64 - 1`: the cast to `int64` collides
with the `-1` sentinel, so the wire carries `-1` despite a present value and
the round trip loses the instance. -/
theorem C7_instance_sentinel_counterexample :
    (ConvertToProtoInstanceFilter ⟨none, none, some (2 ^ 64 - 1)⟩).instanceNum = -1 ∧
    (⟨none, none, some (2 ^ 64 - 1)⟩ : InstanceFilter).mInstance ≠ none ∧
    ConvertToAosInstanceFilter
        (ConvertToProtoInstanceFilter ⟨none, none, some (2 ^ 64 - 1)⟩)
      ≠ ⟨none, none, some (2 ^ 64 - 1)⟩ := by
  refine ⟨by decide, by decide, ?_⟩
  intro h
  have := congrArg InstanceFilter.mInstance h
  simp [ConvertToAosInstanceFilter, ConvertToProtoInstanceFilter,
    toInt64OfUInt64] at this

/-- C7 (amended): `ConvertToAos` yields an absent instance exactly when the
wire instance equals `-1`; `ConvertToProto` writes `instance=-1` exactly when
the domain instance is absent **or equals `2^64 - 1`** (whose `int64` cast is
`-1`); and the instance field survives the round trip for every `uint64`
instance value other than `2^64 - 1`. -/
theorem C7_instance_filter_wire (f : InstanceFilter) (w : PBInstanceFilter)
    (hv : ∀ v, f.mInstance = some v → v < 2 ^ 64) :
    ((ConvertToAosInstanceFilter w).mInstance = none ↔ w.instanceNum = -1) ∧
    ((ConvertToProtoInstanceFilter f).instanceNum = -1 ↔
      f.mInstance = none ∨ f.mInstance = some (2 ^ 64 - 1)) ∧
    (f.mInstance ≠ some (2 ^ 64 - 1) →
      (ConvertToAosInstanceFilter (ConvertToProtoInstanceFilter f)).mInstance
        = f.mInstance) := by
  refine ⟨?_, ?_, ?_⟩
  · simp only [ConvertToAosInstanceFilter]
    split <;> rename_i h <;> simp_all
  · cases hf : f.mInstance with
    | none => simp [ConvertToProtoInstanceFilter, hf]
    | some v =>
      have hlt := hv v hf
      simp only [ConvertToProtoInstanceFilter, hf, toInt64_eq_neg_one,
        Nat.mod_eq_of_lt hlt]
      constructor
      · intro h
        exact Or.inr (by rw [h])
      · rintro (h | h)
        · exact absurd h (by simp)
        · simp only [Option.some.injEq] at h
          omega
  · intro hne
    cases hf : f.mInstance with
    | none => simp [ConvertToProtoInstanceFilter, ConvertToAosInstanceFilter, hf]
    | some v =>
      have hlt := hv v hf
      have hv' : v ≠ 2 ^ 64 - 1 := fun h => hne (hf.trans (by rw [h]))
      have hm : toInt64OfUInt64 v ≠ -1 := by
        rw [Ne, toInt64_eq_neg_one, Nat.mod_eq_of_lt hlt]
        exact hv'
      simp [ConvertToProtoInstanceFilter, ConvertToAosInstanceFilter, hf, hm,
        toUInt64_toInt64 v hlt]

/-- Witness for C7 at a concrete filter (instance 3) and wire value
(instance -1). -/
theorem C7_instance_filter_wire_witness :
    (∀ v, (⟨none, none, some 3⟩ : InstanceFilter).mInstance = some v → v < 2 ^ 64) ∧
    (((ConvertToAosInstanceFilter ⟨[], [], -1⟩).mInstance = none ↔
        (⟨[], [], -1⟩ : PBInstanceFilter).instanceNum = -1) ∧
      ((ConvertToProtoInstanceFilter ⟨none, none, some 3⟩).instanceNum = -1 ↔
        (⟨none, none, some 3⟩ : InstanceFilter).mInstance = none ∨
          (⟨none, none, some 3⟩ : InstanceFilter).mInstance = some (2 ^ 64 - 1)) ∧
      ((⟨none, none, some 3⟩ : InstanceFilter).mInstance ≠ some (2 ^ 64 - 1) →
        (ConvertToAosInstanceFilter
            (ConvertToProtoInstanceFilter ⟨none, none, some 3⟩)).mInstance
          = (⟨none, none, some 3⟩ : InstanceFilter).mInstance)) :=
  ⟨fun v h => by simp at h; omega,
    C7_instance_filter_wire ⟨none, none, some 3⟩ ⟨[], [], -1⟩
      (fun v h => by simp at h; omega)⟩

/-- C8 counterexample: the claim "a wire timestamp converts to an absent
domain value exactly when it has seconds=0" fails at `seconds = -1`:
the code tests `seconds() > 0`, so the negative timestamp also maps to
absent. -/
theorem C8_timestamp_counterexample :
    ConvertToAosTimestamp ⟨-1, 0⟩ = none ∧ (⟨-1, 0⟩ : PBTimestamp).seconds ≠ 0 := by
  decide

/-- C8 (amended): a wire timestamp converts to an absent domain value exactly
when its seconds are **non-positive** (`seconds() > 0` is the code's
presence test); a positive-seconds timestamp converts to `Unix(seconds,
nanos)`; and the zero time representing an absent domain timestamp
wire-encodes with `seconds=0`. -/
theorem C8_timestamp_absent (w : PBTimestamp) :
    (ConvertToAosTimestamp w = none ↔ w.seconds ≤ 0) ∧
    (0 < w.seconds → ConvertToAosTimestamp w = some (Time.Unix w.seconds w.nanos)) ∧
    (TimestampToPB Time.zero).seconds = 0 := by
  refine ⟨?_, ?_, rfl⟩
  · unfold ConvertToAosTimestamp
    split <;> rename_i h <;> simp <;> omega
  · intro h
    unfold ConvertToAosTimestamp
    rw [if_pos h]

/-- Witness for C8 at the concrete wire timestamp `(5, 7)`. -/
theorem C8_timestamp_absent_witness :
    (ConvertToAosTimestamp ⟨5, 7⟩ = none ↔ (⟨5, 7⟩ : PBTimestamp).seconds ≤ 0) ∧
    ((0 : Int) < 5 ∧ ConvertToAosTimestamp ⟨5, 7⟩ = some (Time.Unix 5 7)) :=
  ⟨(C8_timestamp_absent ⟨5, 7⟩).1,
    by decide, (C8_timestamp_absent ⟨5, 7⟩).2.1 (by decide)⟩

/-! ## Configuration parsing (`src/config/config.cpp`)

The JSON file is embedded as a `Json` value; Poco / `common::utils` JSON
access (an external collaborator) is modelled by the `getField` /
`GetValue` / `GetOptionalValue` / `GetArrayValue` helpers below, with
thrown exceptions embedded as `Except.error`. -/

/-- A parsed JSON document (numbers restricted to integers, which is all the
configuration uses). -/
inductive Json where
  | null
  | jbool (b : Bool)
  | num (n : Int)
  | str (s : Str)
  | arr (elems : List Json)
  | obj (fields : List (Str × Json))

/-- ASCII lower-casing, for the case-insensitive key comparison of
`common::utils::CaseInsensitiveObjectWrapper`. -/
def lowerChar (c : Char) : Char :=
  if 'A' ≤ c ∧ c ≤ 'Z' then Char.ofNat (c.toNat + 32) else c

/-- Case-insensitive key equality. -/
def keyEq (a b : Str) : Bool := a.map lowerChar == b.map lowerChar

/-- First field of an object whose key matches case-insensitively. -/
def findField (key : Str) : List (Str × Json) → Option Json
  | [] => none
  | (k, v) :: rest => if keyEq k key then some v else findField key rest

/-- `CaseInsensitiveObjectWrapper` field access (`none` when the wrapped
value is not an object or lacks the key). -/
def getField (j : Json) (key : String) : Option Json :=
  match j with
  | .obj fields => findField key.toList fields
  | _ => none

/-- `CaseInsensitiveObjectWrapper::Has`. -/
def Json.has (j : Json) (key : String) : Bool := (getField j key).isSome

/-- `Poco::Dynamic::Var::convert<std::string>`: strings pass through, numbers
and booleans stringify, structured values throw. -/
def convertToString : Json → Except AosErr Str
  | .str s => .ok s
  | .num n => .ok (toString n).toList
  | .jbool b => .ok (if b then "true".toList else "false".toList)
  | _ => .error .eFailed

/-- Digits-only decimal reading used by the numeric conversions. -/
def natOfDigits (s : Str) : Nat :=
  s.foldl (fun a c => a * 10 + (c.toNat - 48)) 0

/-- Decimal integer parsing of a string (`Var::convert<int>` on strings). -/
def parseIntStr (s : Str) : Option Int :=
  match s with
  | '-' :: rest =>
    if rest ≠ [] ∧ rest.all (·.isDigit) then some (-(natOfDigits rest : Int)) else none
  | _ => if s ≠ [] ∧ s.all (·.isDigit) then some (natOfDigits s : Nat) else none

/-- `Poco::Dynamic::Var::convert<int>`-style conversion to an integer. -/
def convertToInt : Json → Except AosErr Int
  | .num n => .ok n
  | .str s => match parseIntStr s with
    | some n => .ok n
    | none => .error .eFailed
  | .jbool b => .ok (if b then 1 else 0)
  | _ => .error .eFailed

/-- Conversion to an unsigned integer of width `w` bits; out-of-range values
throw (`Poco::RangeException`). -/
def convertToUInt (w : Nat) (j : Json) : Except AosErr Int := do
  let n ← convertToInt j
  if 0 ≤ n ∧ n < 2 ^ w then pure n else .error .eFailed

/-- `GetValue<std::string>(key, default)`. -/
def GetValueStr (j : Json) (key : String) (dflt : Str) : Except AosErr Str :=
  match getField j key with
  | none => .ok dflt
  | some v => convertToString v

/-- `GetValue<uintN_t>(key, default)` (also `size_t` with `w = 64`). -/
def GetValueUInt (w : Nat) (j : Json) (key : String) (dflt : Int) :
    Except AosErr Int :=
  match getField j key with
  | none => .ok dflt
  | some v => convertToUInt w v

/-- `GetOptionalValue<std::string>(key)`. -/
def GetOptionalValueStr (j : Json) (key : String) : Except AosErr (Option Str) :=
  match getField j key with
  | none => .ok none
  | some v => some <$> convertToString v

/-- `GetOptionalValue<int>(key)`. -/
def GetOptionalValueInt (j : Json) (key : String) : Except AosErr (Option Int) :=
  match getField j key with
  | none => .ok none
  | some v => some <$> convertToInt v

/-- `GetArrayValue<std::string>(object, key)`: missing key yields an empty
vector, a present non-array or non-convertible element throws. -/
def GetArrayValueStr (j : Json) (key : String) : Except AosErr (List Str) :=
  match getField j key with
  | none => .ok []
  | some (.arr xs) => xs.mapM convertToString
  | some _ => .error .eFailed

/-- `GetObject(key)`: the sub-object, throwing when absent or not an
object. -/
def GetObject (j : Json) (key : String) : Except AosErr Json :=
  match getField j key with
  | some (.obj fields) => .ok (.obj fields)
  | _ => .error .eFailed

/-- The `object.Has(key) ? object.GetObject(key) : empty` pattern of
`ParseConfig`. -/
def getObjectOr (j : Json) (key : String) : Except AosErr Json :=
  if j.has key then GetObject j key else .ok (.obj [])

/-- Durations are nanosecond counts (`aos::Time::Duration`). -/
abbrev Duration := Nat

/-- Nanoseconds per second. -/
def nsPerSec : Nat := 1000000000

/-- Seconds of a duration (`Duration::Seconds()`). -/
def Duration.seconds (d : Duration) : Nat := d / nsPerSec

/-- `common::utils::ParseDuration` (external collaborator), modelled for the
forms the configuration uses: a decimal count followed by an optional unit
suffix; anything else is a parse error. -/
def ParseDuration (s : Str) : Except AosErr Duration :=
  let digits := s.takeWhile (·.isDigit)
  let rest := s.dropWhile (·.isDigit)
  if digits = [] then .error .eInvalidArgument
  else
    let n := natOfDigits digits
    match rest with
    | [] => .ok (n * nsPerSec)
    | ['n', 's'] => .ok n
    | ['u', 's'] => .ok (n * 1000)
    | ['m', 's'] => .ok (n * 1000000)
    | ['s'] => .ok (n * nsPerSec)
    | ['m'] => .ok (n * 60 * nsPerSec)
    | ['h'] => .ok (n * 3600 * nsPerSec)
    | ['d'] => .ok (n * 86400 * nsPerSec)
    | ['w'] => .ok (n * 604800 * nsPerSec)
    | _ => .error .eInvalidArgument

/-- `std::filesystem::path::operator/=` for the relative entries the config
appends. -/
def JoinPath (base : Str) (entry : String) : Str := base ++ ('/' :: entry.toList)

/-! ### Configuration data (`src/config/config.hpp` and collaborator configs) -/

/-- `monitoring::Config` fields set by `ParseMonitoringConfig`. -/
structure MonitoringConfig where
  mPollPeriod : Duration
  mAverageWindow : Duration
  deriving DecidableEq, Repr

/-- `common::logprovider::Config` fields set by `ParseLoggingConfig`. -/
structure LoggingConfig where
  mMaxPartSize : Int
  mMaxPartCount : Int
  deriving DecidableEq, Repr

/-- `JournalAlertsConfig` (`src/config/config.hpp`). -/
structure JournalAlertsConfig where
  mFilter : List Str
  mServiceAlertPriority : Int
  mSystemAlertPriority : Int
  deriving DecidableEq, Repr

/-- `MigrationConfig` (`src/config/config.hpp`). -/
structure MigrationConfig where
  mMigrationPath : Str
  mMergedMigrationPath : Str
  deriving DecidableEq, Repr

/-- `common::iamclient::Config` fields set by `ParseIAMClientConfig`. -/
structure IAMClientConfig where
  mIAMPublicServerURL : Str
  mCACert : Str
  deriving DecidableEq, Repr

/-- `sm::servicemanager::Config` fields set by `ParseServiceManagerConfig`. -/
structure ServiceManagerConfig where
  mServicesDir : Str
  mDownloadDir : Str
  mPartLimit : Int
  mTTL : Duration
  mRemoveOutdatedPeriod : Option Duration
  deriving DecidableEq, Repr

/-- `sm::layermanager::Config` fields set by `ParseLayerManagerConfig`. -/
structure LayerManagerConfig where
  mLayersDir : Str
  mDownloadDir : Str
  mPartLimit : Int
  mTTL : Duration
  mRemoveOutdatedPeriod : Option Duration
  deriving DecidableEq, Repr

/-- `aos::Host`. -/
structure Host where
  mIP : Str
  mHostname : Str
  deriving DecidableEq, Repr

/-- `sm::launcher::Config` fields set by `ParseLauncherConfig`. -/
structure LauncherConfig where
  mStorageDir : Str
  mStateDir : Str
  mWorkDir : Str
  mHostBinds : List Str
  mHosts : List Host
  mRemoveOutdatedPeriod : Option Duration
  deriving DecidableEq, Repr

/-- `smclient::Config` fields set by `ParseSMClientConfig`. -/
structure SMClientConfig where
  mCertStorage : Str
  mCMServerURL : Str
  mCMReconnectTimeout : Duration
  deriving DecidableEq, Repr

/-- `aos::sm::config::Config`. -/
structure Config where
  mIAMClientConfig : IAMClientConfig
  mLayerManagerConfig : LayerManagerConfig
  mServiceManagerConfig : ServiceManagerConfig
  mLauncherConfig : LauncherConfig
  mSMClientConfig : SMClientConfig
  mCertStorage : Str
  mIAMProtectedServerURL : Str
  mWorkingDir : Str
  mServicesPartLimit : Int
  mLayersPartLimit : Int
  mNodeConfigFile : Str
  mMonitoring : MonitoringConfig
  mLogging : LoggingConfig
  mJournalAlerts : JournalAlertsConfig
  mMigration : MigrationConfig
  deriving DecidableEq, Repr

/-- `LOG_WRN` events emitted during config parsing. -/
inductive ConfigWarning where
  | serviceAlertPriorityDefaulted
  | systemAlertPriorityDefaulted
  deriving DecidableEq, Repr

/-! ### Constants from `src/config/config.cpp` -/

def cDefaultServiceTTLDays : Str := "30d".toList

def cDefaultLayerTTLDays : Str := "30d".toList

def cDefaultCMReconnectTimeout : Str := "10s".toList

def cDefaultMonitoringPollPeriod : Str := "35s".toList

def cDefaultMonitoringAverageWindow : Str := "35s".toList

def cDefaultServiceAlertPriority : Int := 4

def cDefaultSystemAlertPriority : Int := 3

def cMaxAlertPriorityLevel : Int := 7

def cMinAlertPriorityLevel : Int := 0

/-- `cloudprotocol::cLogContentLen`, an external library constant (its exact
value is irrelevant to the claims). -/
def cLogContentLen : Int := 65536

/-! ### Section parsers -/

/-- `ParseMonitoringConfig`. -/
def ParseMonitoringConfig (object : Json) : Except AosErr MonitoringConfig := do
  let pollPeriod ←
    if object.has "monitoring" then do
      GetValueStr (← GetObject object "monitoring") "pollPeriod" cDefaultMonitoringPollPeriod
    else pure cDefaultMonitoringPollPeriod
  let averageWindow ←
    if object.has "monitoring" then do
      GetValueStr (← GetObject object "monitoring") "averageWindow" cDefaultMonitoringAverageWindow
    else pure cDefaultMonitoringAverageWindow
  let pp ← ParseDuration pollPeriod
  let aw ← ParseDuration averageWindow
  pure ⟨pp, aw⟩

/-- `ParseLoggingConfig`. -/
def ParseLoggingConfig (object : Json) : Except AosErr LoggingConfig := do
  let maxPartSize ← GetValueUInt 64 object "maxPartSize" cLogContentLen
  let maxPartCount ← GetValueUInt 64 object "maxPartCount" 80
  pure ⟨maxPartSize, maxPartCount⟩

/-- `ParseJournalAlertsConfig`: out-of-range alert priorities are reset to
their defaults with a warning logged. -/
def ParseJournalAlertsConfig (object : Json) :
    Except AosErr (JournalAlertsConfig × List ConfigWarning) := do
  let filter ← GetArrayValueStr object "filter"
  let sp0 := (← GetOptionalValueInt object "serviceAlertPriority").getD
    cDefaultServiceAlertPriority
  let sp := if sp0 > cMaxAlertPriorityLevel ∨ sp0 < cMinAlertPriorityLevel
    then cDefaultServiceAlertPriority else sp0
  let w1 : List ConfigWarning :=
    if sp0 > cMaxAlertPriorityLevel ∨ sp0 < cMinAlertPriorityLevel
    then [.serviceAlertPriorityDefaulted] else []
  let sy0 := (← GetOptionalValueInt object "systemAlertPriority").getD
    cDefaultSystemAlertPriority
  let sy := if sy0 > cMaxAlertPriorityLevel ∨ sy0 < cMinAlertPriorityLevel
    then cDefaultSystemAlertPriority else sy0
  let w2 : List ConfigWarning :=
    if sy0 > cMaxAlertPriorityLevel ∨ sy0 < cMinAlertPriorityLevel
    then [.systemAlertPriorityDefaulted] else []
  pure (⟨filter, sp, sy⟩, w1 ++ w2)

/-- `ParseMigrationConfig`. -/
def ParseMigrationConfig (object : Json) (workingDir : Str) :
    Except AosErr MigrationConfig := do
  let mp := (← GetOptionalValueStr object "migrationPath").getD
    "/usr/share/aos/servicemanager/migration".toList
  let mmp := (← GetOptionalValueStr object "mergedMigrationPath").getD
    (JoinPath workingDir "mergedMigration")
  pure ⟨mp, mmp⟩

/-- `ParseIAMClientConfig`. -/
def ParseIAMClientConfig (object : Json) : Except AosErr IAMClientConfig := do
  let url ← GetValueStr object "iamPublicServerURL" []
  let caCert ← GetValueStr object "caCert" []
  pure ⟨url, caCert⟩

/-- `ParseServiceManagerConfig`. -/
def ParseServiceManagerConfig (object : Json) (workingDir : Str) :
    Except AosErr ServiceManagerConfig := do
  let servicesDir ← GetValueStr object "servicesDir" (JoinPath workingDir "services")
  let downloadDir ← GetValueStr object "downloadDir" (JoinPath workingDir "downloads")
  let partLimit ← GetValueUInt 64 object "servicesPartLimit" 0
  let ttl ← ParseDuration (← GetValueStr object "serviceTTL" cDefaultServiceTTLDays)
  let rop ← match ← GetOptionalValueStr object "removeOutdatedPeriod" with
    | some s => some <$> ParseDuration s
    | none => pure none
  pure ⟨servicesDir, downloadDir, partLimit, ttl, rop⟩

/-- `ParseLayerManagerConfig`. -/
def ParseLayerManagerConfig (object : Json) (workingDir : Str) :
    Except AosErr LayerManagerConfig := do
  let layersDir ← GetValueStr object "layersDir" (JoinPath workingDir "layers")
  let downloadDir ← GetValueStr object "downloadDir" (JoinPath workingDir "downloads")
  let partLimit ← GetValueUInt 64 object "layersPartLimit" 0
  let ttl ← ParseDuration (← GetValueStr object "layerTTL" cDefaultLayerTTLDays)
  let rop ← match ← GetOptionalValueStr object "removeOutdatedPeriod" with
    | some s => some <$> ParseDuration s
    | none => pure none
  pure ⟨layersDir, downloadDir, partLimit, ttl, rop⟩

/-- `ParseHostConfig`. -/
def ParseHostConfig (object : Json) : Except AosErr Host := do
  let ip ← GetValueStr object "ip" []
  let hostname ← GetValueStr object "hostname" []
  pure ⟨ip, hostname⟩

/-- `GetArrayValue<Host>` with the `ParseHostConfig` element parser; each
element is wrapped in a `CaseInsensitiveObjectWrapper`, which throws for
non-objects. -/
def GetArrayValueHosts (j : Json) (key : String) : Except AosErr (List Host) :=
  match getField j key with
  | none => .ok []
  | some (.arr xs) => xs.mapM fun v =>
      match v with
      | .obj fields => ParseHostConfig (.obj fields)
      | _ => .error .eFailed
  | some _ => .error .eFailed

/-- `ParseLauncherConfig`. -/
def ParseLauncherConfig (object : Json) (workingDir : Str) :
    Except AosErr LauncherConfig := do
  let storageDir ← GetValueStr object "storageDir" (JoinPath workingDir "storages")
  let stateDir ← GetValueStr object "stateDir" (JoinPath workingDir "states")
  let hostBinds ← GetArrayValueStr object "hostBinds"
  let hosts ← GetArrayValueHosts object "hosts"
  let rop ← match ← GetOptionalValueStr object "removeOutdatedPeriod" with
    | some s => some <$> ParseDuration s
    | none => pure none
  pure ⟨storageDir, stateDir, workingDir, hostBinds, hosts, rop⟩

/-- `ParseSMClientConfig`. -/
def ParseSMClientConfig (object : Json) : Except AosErr SMClientConfig := do
  let certStorage ← GetValueStr object "certStorage" []
  let cmServerURL ← GetValueStr object "cmServerURL" []
  let timeout ← ParseDuration
    (← GetValueStr object "cmReconnectTimeout" cDefaultCMReconnectTimeout)
  pure ⟨certStorage, cmServerURL, timeout⟩

/-- The body of `ParseConfig`'s `try` block: every section in source order;
any section's exception aborts the whole parse. -/
def parseAllSections (object : Json) :
    Except AosErr (Config × List ConfigWarning) := do
  let workingDir ← GetValueStr object "workingDir" []
  let iam ← ParseIAMClientConfig object
  let layer ← ParseLayerManagerConfig object workingDir
  let svc ← ParseServiceManagerConfig object workingDir
  let launcher ← ParseLauncherConfig object workingDir
  let smclient ← ParseSMClientConfig object
  let certStorage := (← GetOptionalValueStr object "certStorage").getD
    "/var/aos/crypt/sm/".toList
  let iamProt ← GetValueStr object "iamProtectedServerURL" []
  let servicesPartLimit ← GetValueUInt 32 object "servicesPartLimit" 0
  let layersPartLimit ← GetValueUInt 32 object "layersPartLimit" 0
  let nodeConfigFile := (← GetOptionalValueStr object "nodeConfigFile").getD
    (JoinPath workingDir "aos_node.cfg")
  let monitoring ← ParseMonitoringConfig object
  let logging ← ParseLoggingConfig (← getObjectOr object "logging")
  let (journal, warns) ← ParseJournalAlertsConfig (← getObjectOr object "journalAlerts")
  let migration ← ParseMigrationConfig (← getObjectOr object "migration") workingDir
  pure (⟨iam, layer, svc, launcher, smclient, certStorage, iamProt, workingDir,
    servicesPartLimit, layersPartLimit, nodeConfigFile, monitoring, logging,
    journal, migration⟩, warns)

/-- `common::utils::ToAosError` applied in the `catch` clause; the embedded
exception already carries the aos error value. -/
def ToAosError (e : AosErr) : AosErr := e

/-- `ParseConfig`: the file is `none` when it cannot be opened
(`!file.is_open()`), `some (.error e)` when `Poco::JSON::Parser::parse`
throws (invalid JSON), and `some (.ok j)` when it parses to `j`.  Every
exception from the `try` block is converted to a returned error. -/
def ParseConfig (file : Option (Except AosErr Json)) :
    Except AosErr (Config × List ConfigWarning) :=
  match file with
  | none => .error .eNotFound
  | some (.error e) => .error (ToAosError e)
  | some (.ok object) =>
    match parseAllSections object with
    | .error e => .error (ToAosError e)
    | .ok res => .ok res

/-- C6: an alert priority outside `[0,7]` is reset to its default (4 for
service, 3 for system) with a warning logged; a value inside `[0,7]` is kept
unchanged; an absent value defaults without a warning. -/
theorem C6_journal_alert_priorities (j : Json) (cfg : JournalAlertsConfig)
    (ws : List ConfigWarning) (fil : List Str) (rs ry : Option Int)
    (hfil : GetArrayValueStr j "filter" = .ok fil)
    (hs : GetOptionalValueInt j "serviceAlertPriority" = .ok rs)
    (hy : GetOptionalValueInt j "systemAlertPriority" = .ok ry)
    (h : ParseJournalAlertsConfig j = .ok (cfg, ws)) :
    (∀ v, rs = some v → 0 ≤ v → v ≤ 7 →
      cfg.mServiceAlertPriority = v ∧
        ConfigWarning.serviceAlertPriorityDefaulted ∉ ws) ∧
    (∀ v, rs = some v → (v < 0 ∨ 7 < v) →
      cfg.mServiceAlertPriority = 4 ∧
        ConfigWarning.serviceAlertPriorityDefaulted ∈ ws) ∧
    (rs = none → cfg.mServiceAlertPriority = 4 ∧
      ConfigWarning.serviceAlertPriorityDefaulted ∉ ws) ∧
    (∀ v, ry = some v → 0 ≤ v → v ≤ 7 →
      cfg.mSystemAlertPriority = v ∧
        ConfigWarning.systemAlertPriorityDefaulted ∉ ws) ∧
    (∀ v, ry = some v → (v < 0 ∨ 7 < v) →
      cfg.mSystemAlertPriority = 3 ∧
        ConfigWarning.systemAlertPriorityDefaulted ∈ ws) ∧
    (ry = none → cfg.mSystemAlertPriority = 3 ∧
      ConfigWarning.systemAlertPriorityDefaulted ∉ ws) := by
  simp only [ParseJournalAlertsConfig, hfil, hs, hy, bind, Except.bind, pure,
    Except.pure, Except.ok.injEq, Prod.mk.injEq,
    cDefaultServiceAlertPriority, cDefaultSystemAlertPriority,
    cMaxAlertPriorityLevel, cMinAlertPriorityLevel] at h
  obtain ⟨hcfg, hws⟩ := h
  subst hcfg hws
  refine ⟨?_, ?_, ?_, ?_, ?_, ?_⟩ <;>
    first
      | (intro v hv h0 h1; subst hv; simp only [Option.getD]; split_ifs <;>
          simp_all <;> omega)
      | (intro v hv hrange; subst hv; simp only [Option.getD]; split_ifs <;>
          simp_all <;> omega)
      | (intro hv; subst hv; simp only [Option.getD]; split_ifs <;>
          simp_all <;> omega)

/-- Witness for C6: a config object with `serviceAlertPriority=9` (reset to 4
with a warning) and `systemAlertPriority=5` (kept). -/
theorem C6_journal_alert_priorities_witness :
    (GetArrayValueStr (Json.obj [("serviceAlertPriority".toList, Json.num 9),
        ("systemAlertPriority".toList, Json.num 5)]) "filter" = .ok []) ∧
    (ParseJournalAlertsConfig (Json.obj [("serviceAlertPriority".toList, Json.num 9),
        ("systemAlertPriority".toList, Json.num 5)])
      = .ok (⟨[], 4, 5⟩, [.serviceAlertPriorityDefaulted])) ∧
    ((9 : Int) < 0 ∨ (7 : Int) < 9) ∧
    ((⟨[], 4, 5⟩ : JournalAlertsConfig).mServiceAlertPriority = 4 ∧
      ConfigWarning.serviceAlertPriorityDefaulted ∈
        [ConfigWarning.serviceAlertPriorityDefaulted]) ∧
    ((⟨[], 4, 5⟩ : JournalAlertsConfig).mSystemAlertPriority = 5 ∧
      ConfigWarning.systemAlertPriorityDefaulted ∉
        [ConfigWarning.serviceAlertPriorityDefaulted]) :=
  ⟨rfl, rfl, by decide,
    (C6_journal_alert_priorities
        (Json.obj [("serviceAlertPriority".toList, Json.num 9),
          ("systemAlertPriority".toList, Json.num 5)])
        ⟨[], 4, 5⟩ [.serviceAlertPriorityDefaulted] [] (some 9) (some 5)
        rfl rfl rfl rfl).2.1 9 rfl (by decide),
    (C6_journal_alert_priorities
        (Json.obj [("serviceAlertPriority".toList, Json.num 9),
          ("systemAlertPriority".toList, Json.num 5)])
        ⟨[], 4, 5⟩ [.serviceAlertPriorityDefaulted] [] (some 9) (some 5)
        rfl rfl rfl rfl).2.2.2.1 5 rfl (by decide) (by decide)⟩

/-- A successful `Except` bind factors through a successful first step. -/
theorem exceptBindOk {α β : Type} {x : Except AosErr α} {f : α → Except AosErr β}
    {r : β} (h : (x >>= f) = .ok r) : ∃ a, x = .ok a ∧ f a = .ok r := by
  cases x with
  | error e => simp [Bind.bind, Except.bind] at h
  | ok a => exact ⟨a, rfl, by simpa [Bind.bind, Except.bind] using h⟩

/-- C10: `ParseConfig` returns `NotFound` when the file cannot be opened;
every exception raised while parsing (invalid JSON or a failing section
parser) becomes a returned error value; and success implies every section
parser succeeded. -/
theorem C10_parse_config_error_handling :
    ParseConfig none = .error .eNotFound ∧
    (∀ content, (∃ r, ParseConfig (some content) = .ok r) ∨
      (∃ e, ParseConfig (some content) = .error (ToAosError e) ∧
        (content = .error e ∨ ∃ j, content = .ok j ∧ parseAllSections j = .error e))) ∧
    (∀ j r, ParseConfig (some (.ok j)) = .ok r →
      ∃ wd, GetValueStr j "workingDir" [] = .ok wd ∧
        (∃ x, ParseIAMClientConfig j = .ok x) ∧
        (∃ x, ParseLayerManagerConfig j wd = .ok x) ∧
        (∃ x, ParseServiceManagerConfig j wd = .ok x) ∧
        (∃ x, ParseLauncherConfig j wd = .ok x) ∧
        (∃ x, ParseSMClientConfig j = .ok x) ∧
        (∃ x, ParseMonitoringConfig j = .ok x) ∧
        (∃ o x, getObjectOr j "logging" = .ok o ∧ ParseLoggingConfig o = .ok x) ∧
        (∃ o x, getObjectOr j "journalAlerts" = .ok o ∧
          ParseJournalAlertsConfig o = .ok x) ∧
        (∃ o x, getObjectOr j "migration" = .ok o ∧
          ParseMigrationConfig o wd = .ok x)) := by
  refine ⟨rfl, ?_, ?_⟩
  · intro content
    match content with
    | .error e => exact .inr ⟨e, rfl, .inl rfl⟩
    | .ok j =>
      cases hps : parseAllSections j with
      | error e =>
        exact .inr ⟨e, by simp [ParseConfig, hps], .inr ⟨j, rfl, hps⟩⟩
      | ok res => exact .inl ⟨res, by simp [ParseConfig, hps]⟩
  · intro j r h
    have hall : parseAllSections j = .ok r := by
      simp only [ParseConfig] at h
      cases hps : parseAllSections j with
      | error e => rw [hps] at h; exact absurd h (by simp)
      | ok res => rw [hps] at h; simpa using h
    unfold parseAllSections at hall
    obtain ⟨wd, h1, hall⟩ := exceptBindOk hall
    obtain ⟨iam, h2, hall⟩ := exceptBindOk hall
    obtain ⟨layer, h3, hall⟩ := exceptBindOk hall
    obtain ⟨svc, h4, hall⟩ := exceptBindOk hall
    obtain ⟨launcher, h5, hall⟩ := exceptBindOk hall
    obtain ⟨smclient, h6, hall⟩ := exceptBindOk hall
    obtain ⟨cert0, h7, hall⟩ := exceptBindOk hall
    obtain ⟨iamProt, h8, hall⟩ := exceptBindOk hall
    obtain ⟨spl, h9, hall⟩ := exceptBindOk hall
    obtain ⟨lpl, h10, hall⟩ := exceptBindOk hall
    obtain ⟨ncf0, h11, hall⟩ := exceptBindOk hall
    obtain ⟨monitoring, h12, hall⟩ := exceptBindOk hall
    obtain ⟨loggingObj, h13, hall⟩ := exceptBindOk hall
    obtain ⟨logging, h14, hall⟩ := exceptBindOk hall
    obtain ⟨journalObj, h15, hall⟩ := exceptBindOk hall
    obtain ⟨jw, h16, hall⟩ := exceptBindOk hall
    obtain ⟨migrationObj, h17, hall⟩ := exceptBindOk hall
    obtain ⟨migration, h18, _⟩ := exceptBindOk hall
    exact ⟨wd, h1, ⟨iam, h2⟩, ⟨layer, h3⟩, ⟨svc, h4⟩, ⟨launcher, h5⟩,
      ⟨smclient, h6⟩, ⟨monitoring, h12⟩, ⟨loggingObj, logging, h13, h14⟩,
      ⟨journalObj, jw, h15, h16⟩, ⟨migrationObj, migration, h17, h18⟩⟩

/-- Witness for C10 at the empty JSON object, which parses successfully with
every default filled, and at an unopenable file. -/
theorem C10_parse_config_error_handling_witness :
    ParseConfig none = .error .eNotFound ∧
    (∃ wd, GetValueStr (Json.obj []) "workingDir" [] = .ok wd ∧
      (∃ x, ParseIAMClientConfig (Json.obj []) = .ok x) ∧
      (∃ x, ParseLayerManagerConfig (Json.obj []) wd = .ok x) ∧
      (∃ x, ParseServiceManagerConfig (Json.obj []) wd = .ok x) ∧
      (∃ x, ParseLauncherConfig (Json.obj []) wd = .ok x) ∧
      (∃ x, ParseSMClientConfig (Json.obj []) = .ok x) ∧
      (∃ x, ParseMonitoringConfig (Json.obj []) = .ok x) ∧
      (∃ o x, getObjectOr (Json.obj []) "logging" = .ok o ∧
        ParseLoggingConfig o = .ok x) ∧
      (∃ o x, getObjectOr (Json.obj []) "journalAlerts" = .ok o ∧
        ParseJournalAlertsConfig o = .ok x) ∧
      (∃ o x, getObjectOr (Json.obj []) "migration" = .ok o ∧
        ParseMigrationConfig o wd = .ok x)) :=
  ⟨C10_parse_config_error_handling.1,
    C10_parse_config_error_handling.2.2 (Json.obj []) _ rfl⟩

/-! ## Runner (`src/runner/runner.cpp`)

The Runner's mutex-protected maps become explicit state; each supervisor
(systemd) call's outcome is an oracle input.  The monitor thread's
iterations are `monitorStep` applications; the iterations that may run
while `StartInstance` waits on the condition variable are the `ticks`
carried by the start oracle.  `observedActive` is ghost instrumentation: it
records every unit name that some supervisor observation (`GetUnitStatus`
or `ListUnits`) reported in state `active`. -/

/-- Host-supervisor unit states (`UnitStateEnum`). -/
inductive UnitState where
  | active
  | inactive
  | activating
  | deactivating
  | failed
  deriving DecidableEq, Repr

/-- `InstanceRunStateEnum`. -/
inductive InstanceRunState where
  | active
  | failed
  deriving DecidableEq, Repr

/-- `ToInstanceState`: only supervisor state `active` maps to `Active`;
everything else is `Failed`. -/
def ToInstanceState (state : UnitState) : InstanceRunState :=
  if state = .active then .active else .failed

/-- An entry of `mStartingUnits` (run state as reported by the supervisor,
plus exit code). -/
structure StartingUnitData where
  mRunState : UnitState
  mExitCode : Option Int
  deriving DecidableEq, Repr

/-- An entry of `mRunningUnits`. -/
structure RunningUnitData where
  mRunState : InstanceRunState
  mExitCode : Option Int
  deriving DecidableEq, Repr

/-- `aos::RunStatus` as filled by the Runner. -/
structure RunStatus where
  mInstanceID : Str
  mState : InstanceRunState
  mError : AosErr
  deriving DecidableEq, Repr

/-- One row of a `ListUnits` result. -/
structure UnitInfo where
  mName : Str
  mActiveState : UnitState
  mExitCode : Option Int
  deriving DecidableEq, Repr

/-- `aos::RunParameters` (all three fields optional). -/
structure RunParameters where
  mStartInterval : Option Duration
  mStartBurst : Option Int
  mRestartInterval : Option Duration
  deriving DecidableEq, Repr

/-- The run parameters after `StartInstance` fills the defaults. -/
structure FixedRunParameters where
  startInterval : Duration
  startBurst : Int
  restartInterval : Duration
  deriving DecidableEq, Repr

/-- Modelled from the spec: the constants `cSystemdDropInsDir`,
`cParametersFileName`, `cDefaultStartInterval`, `cDefaultStartBurst` and
`cDefaultRestartInterval` are declared in `runner.hpp`, which is not under
`src/`; the spec fixes only their roles (drop-in directory, drop-in file
name, defaults for absent run parameters), so they are parameters of the
model. -/
structure RunnerConfig where
  cSystemdDropInsDir : Str
  cParametersFileName : Str
  cDefaultStartInterval : Duration
  cDefaultStartBurst : Int
  cDefaultRestartInterval : Duration

/-- The file-system fragment the Runner touches: directory paths with their
permissions, and file paths with permissions and content. -/
structure Fs where
  dirs : List (Str × Nat)
  files : List (Str × Nat × Str)
  deriving DecidableEq, Repr

/-! ### Association-list maps (`std::unordered_map` keyed by unit name) -/

section AssocMap

variable {α : Type}

/-- Map lookup. -/
def alookup (k : Str) : List (Str × α) → Option α
  | [] => none
  | (a, b) :: t => if a = k then some b else alookup k t

/-- Map insert-or-assign (`operator[]` followed by assignment). -/
def ainsert (k : Str) (v : α) : List (Str × α) → List (Str × α)
  | [] => [(k, v)]
  | (a, b) :: t => if a = k then (k, v) :: t else (a, b) :: ainsert k v t

/-- Map erase by key. -/
def aerase (k : Str) : List (Str × α) → List (Str × α)
  | [] => []
  | (a, b) :: t => if a = k then aerase k t else (a, b) :: aerase k t

end AssocMap

/-- The Runner's state: the two unit maps, the cached size of the last
published `mRunningInstances`, the drop-in file-system fragment, the
`mClosed` flag, whether the monitor thread is alive, the `LOG_ERR` sink of
the monitor thread, and the ghost set of units observed `active`. -/
structure RunnerState where
  mStartingUnits : List (Str × StartingUnitData)
  mRunningUnits : List (Str × RunningUnitData)
  lastReportedCount : Nat
  fs : Fs
  mClosed : Bool
  monitorRunning : Bool
  logs : List AosErr
  observedActive : List Str

/-- A freshly started Runner: empty maps, monitor thread alive. -/
def initialRunnerState : RunnerState :=
  ⟨[], [], 0, ⟨[], []⟩, false, true, [], []⟩

/-- One record of a published run status (ghost projection keyed by unit
name). -/
structure EmitRec where
  unit : Str
  state : InstanceRunState
  exitCode : Option Int
  deriving DecidableEq, Repr

/-- `<dropInsDir>/<unitName>.d`. -/
def dropInDir (cfg : RunnerConfig) (unitName : Str) : Str :=
  cfg.cSystemdDropInsDir ++ ('/' :: unitName) ++ ".d".toList

/-- `<dropInsDir>/<unitName>.d/<parametersFileName>`. -/
def dropInFile (cfg : RunnerConfig) (unitName : Str) : Str :=
  dropInDir cfg unitName ++ ('/' :: cfg.cParametersFileName)

/-- Decimal rendering. -/
def toStrNat (n : Nat) : Str := (toString n).toList

/-- Decimal rendering of a signed value. -/
def toStrInt (n : Int) : Str := (toString n).toList

/-- The drop-in content produced by `Poco::format` in `SetRunParameters`:
`[Unit]` section with `StartLimitIntervalSec` (`%u` of `Seconds()`) and
`StartLimitBurst`, `[Service]` section with `RestartSec`. -/
def parametersContent (p : FixedRunParameters) : Str :=
  "[Unit]\nStartLimitIntervalSec=".toList
    ++ toStrNat (p.startInterval.seconds % 2 ^ 32)
    ++ "s\nStartLimitBurst=".toList ++ toStrInt p.startBurst
    ++ "\n\n[Service]\nRestartSec=".toList
    ++ toStrNat (p.restartInterval.seconds % 2 ^ 32) ++ "s\n".toList

/-- `CreateDir(path, perms)`: `create_directories` + `permissions(replace)`;
the oracle decides whether the filesystem errors. -/
def CreateDir (fs : Fs) (path : Str) (perms : Nat) (err : AosErr) : AosErr × Fs :=
  if err ≠ .eNone then (err, fs)
  else (.eNone, { fs with dirs := ainsert path perms fs.dirs })

/-- `fs::WriteStringToFile(path, content, perms)`. -/
def WriteStringToFile (fs : Fs) (path : Str) (content : Str) (perms : Nat)
    (err : AosErr) : AosErr × Fs :=
  if err ≠ .eNone then (err, fs)
  else (.eNone, { fs with files := ainsert path (perms, content) fs.files })

/-- `Runner::SetRunParameters`: create the per-unit drop-in directory with
mode 0755, then write the parameters file with mode 0644. -/
def SetRunParameters (cfg : RunnerConfig) (fs : Fs) (unitName : Str)
    (params : FixedRunParameters) (createDirErr writeFileErr : AosErr) :
    AosErr × Fs :=
  let (e1, fs1) := CreateDir fs (dropInDir cfg unitName) 0o755 createDirErr
  if e1 ≠ .eNone then (e1, fs1)
  else WriteStringToFile fs1 (dropInFile cfg unitName)
    (parametersContent params) 0o644 writeFileErr

/-- `Runner::RemoveRunParameters`: `fs::RemoveAll` of the drop-in
directory. -/
def RemoveRunParameters (cfg : RunnerConfig) (fs : Fs) (unitName : Str)
    (removeErr : AosErr) : AosErr × Fs :=
  if removeErr ≠ .eNone then (removeErr, fs)
  else (.eNone,
    { dirs := fs.dirs.filter fun e => !((dropInDir cfg unitName).isPrefixOf e.1),
      files := fs.files.filter fun e => !((dropInDir cfg unitName).isPrefixOf e.1) })

/-! ### Monitor loop (`Runner::MonitorUnits`) -/

/-- The result of one `ListUnits` call, as seen by one monitor iteration. -/
abbrev TickInput := Except AosErr (List UnitInfo)

/-- Why the monitor loop returned. -/
inductive MonitorExit where
  | closedSignal
  | listUnitsFailed
  deriving DecidableEq, Repr

/-- The starting-unit half of the monitor loop body: a known starting unit's
entry is overwritten with the freshly observed state. -/
def updateStartingUnit (su : List (Str × StartingUnitData)) (u : UnitInfo) :
    List (Str × StartingUnitData) :=
  match alookup u.mName su with
  | some _ => ainsert u.mName ⟨u.mActiveState, u.mExitCode⟩ su
  | none => su

/-- The running-unit half of the monitor loop body: a known running unit's
entry is replaced — and "changed" reported — when state or exit code
differ. -/
def updateRunningUnit (ru : List (Str × RunningUnitData)) (u : UnitInfo) :
    List (Str × RunningUnitData) × Bool :=
  match alookup u.mName ru with
  | some d =>
    let instanceState := ToInstanceState u.mActiveState
    if instanceState ≠ d.mRunState ∨ u.mExitCode ≠ d.mExitCode then
      (ainsert u.mName ⟨instanceState, u.mExitCode⟩ ru, true)
    else (ru, false)
  | none => (ru, false)

/-- The per-unit body of the monitor loop. -/
def updateUnitMaps
    (acc : List (Str × StartingUnitData) × List (Str × RunningUnitData) × Bool)
    (u : UnitInfo) :
    List (Str × StartingUnitData) × List (Str × RunningUnitData) × Bool :=
  let (su, ru, ch) := acc
  (updateStartingUnit su u, (updateRunningUnit ru u).1,
    ch || (updateRunningUnit ru u).2)

/-- `Runner::GetRunningInstances`: one status per running unit. -/
def GetRunningInstances (ru : List (Str × RunningUnitData)) : List EmitRec :=
  ru.map fun e => ⟨e.1, e.2.mRunState, e.2.mExitCode⟩

/-- One monitor iteration over a successful `ListUnits` result: fold the
per-unit updates, then publish `GetRunningInstances()` when some running
unit changed or the map size differs from the previously published array.
The ghost `observedActive` collects the units this observation reported
`active`. -/
def monitorTickCore (st : RunnerState) (units : List UnitInfo) :
    RunnerState × Option (List EmitRec) :=
  let obs := st.observedActive
    ++ (units.filter fun u => u.mActiveState == UnitState.active).map (·.mName)
  let (su, ru, ch) :=
    units.foldl updateUnitMaps (st.mStartingUnits, st.mRunningUnits, false)
  let emit := ch || (ru.length != st.lastReportedCount)
  ({ st with
      mStartingUnits := su
      mRunningUnits := ru
      observedActive := obs
      lastReportedCount := if emit then ru.length else st.lastReportedCount },
    if emit then some (GetRunningInstances ru) else none)

/-- One iteration of the monitor loop: the `mClosed` wake-up returns; a
failed `ListUnits` is logged (`LOG_ERR`) and returns — ending the thread —
and a successful one runs `monitorTickCore`. -/
def monitorStep (st : RunnerState) (t : TickInput) :
    RunnerState × Option (List EmitRec) × Option MonitorExit :=
  if st.mClosed then
    ({ st with monitorRunning := false }, none, some .closedSignal)
  else match t with
    | .error e =>
      ({ st with logs := st.logs ++ [e], monitorRunning := false }, none,
        some .listUnitsFailed)
    | .ok units =>
      let (st', em) := monitorTickCore st units
      (st', em, none)

/-- The monitor loop run over a list of iteration inputs: iterations are
processed until one returns (the remaining inputs are never seen). -/
def monitorRun (st : RunnerState) (ticks : List TickInput) :
    RunnerState × List (List EmitRec) × Option MonitorExit :=
  match ticks with
  | [] => (st, [], none)
  | t :: rest =>
    match monitorStep st t with
    | (st', em, some r) => (st', em.toList, some r)
    | (st', em, none) =>
      let (st'', ems, r) := monitorRun st' rest
      (st'', em.toList ++ ems, r)

/-- `Runner::Start`: create the systemd connection (the oracle decides
whether that throws), clear `mClosed` and (re)start the monitor thread. -/
def RunnerStart (st : RunnerState) (connErr : AosErr) : AosErr × RunnerState :=
  if connErr ≠ .eNone then (connErr, st)
  else (.eNone, { st with mClosed := false, monitorRunning := true })

/-! ### StartInstance / StopInstance -/

/-- The supervisor's behaviour during one `StartInstance` call:
the outcomes of the drop-in write, `StartUnit` and `GetUnitStatus`, the
initially observed unit state, and the monitor iterations that run while
the starter waits on the condition variable. -/
structure StartOracle where
  createDirErr : AosErr
  writeFileErr : AosErr
  startUnitErr : AosErr
  getStatusErr : AosErr
  initialState : UnitState
  initialExitCode : Option Int
  ticks : List TickInput

/-- `mStartingUnits[unitName] = initial GetUnitStatus observation` (the
observation is recorded as `active` in the ghost set when it is). -/
def insertStartingUnit (st : RunnerState) (unitName : Str) (o : StartOracle) :
    RunnerState :=
  { st with
      mStartingUnits :=
        ainsert unitName ⟨o.initialState, o.initialExitCode⟩ st.mStartingUnits
      observedActive := st.observedActive
        ++ (if o.initialState == UnitState.active then [unitName] else []) }

/-- The wait on the starting unit's condition variable: the monitor
iterations in `o.ticks` run, then the entry is read back. -/
def waitStartingUnit (st : RunnerState) (unitName : Str) (o : StartOracle) :
    StartingUnitData × RunnerState × List (List EmitRec) :=
  let st1 := insertStartingUnit st unitName o
  let (st2, ems, _) := monitorRun st1 o.ticks
  ((alookup unitName st2.mStartingUnits).getD ⟨o.initialState, o.initialExitCode⟩,
    st2, ems)

/-- `Runner::GetStartingUnitState`: read the initial status, register the
starting unit, wait, erase the entry, and either fail (with the exit code
when one was reported) or move the unit to `mRunningUnits`. -/
def GetStartingUnitState (st : RunnerState) (unitName : Str) (o : StartOracle) :
    (InstanceRunState × AosErr) × RunnerState × List (List EmitRec) :=
  if o.getStatusErr ≠ .eNone then ((.failed, o.getStatusErr), st, [])
  else
    let (d, st2, ems) := waitStartingUnit st unitName o
    let st3 := { st2 with mStartingUnits := aerase unitName st2.mStartingUnits }
    if d.mRunState ≠ .active then
      ((.failed, match d.mExitCode with
        | some c => .eRuntime c
        | none => .eFailed), st3, ems)
    else
      ((.active, .eNone),
        { st3 with mRunningUnits :=
            ainsert unitName ⟨.active, d.mExitCode⟩ st3.mRunningUnits }, ems)

/-- The default-filling prologue of `StartInstance`. -/
def fixParams (cfg : RunnerConfig) (params : RunParameters) : FixedRunParameters :=
  ⟨params.mStartInterval.getD cfg.cDefaultStartInterval,
    params.mStartBurst.getD cfg.cDefaultStartBurst,
    params.mRestartInterval.getD cfg.cDefaultRestartInterval⟩

/-- `Runner::StartInstance`: fix parameters, write the drop-in, `StartUnit`,
then `GetStartingUnitState`. -/
def StartInstance (cfg : RunnerConfig) (st : RunnerState) (instanceID : Str)
    (params : RunParameters) (o : StartOracle) :
    RunStatus × RunnerState × List (List EmitRec) :=
  let fixedParams := fixParams cfg params
  let unitName := CreateSystemdUnitName instanceID
  let (e1, fs1) := SetRunParameters cfg st.fs unitName fixedParams
    o.createDirErr o.writeFileErr
  let st1 := { st with fs := fs1 }
  if e1 ≠ .eNone then (⟨instanceID, .failed, e1⟩, st1, [])
  else if o.startUnitErr ≠ .eNone then
    (⟨instanceID, .failed, o.startUnitErr⟩, st1, [])
  else
    let (res, st2, ems) := GetStartingUnitState st1 unitName o
    (⟨instanceID, res.1, res.2⟩, st2, ems)

/-- The supervisor's behaviour during one `StopInstance` call. -/
structure StopOracle where
  stopUnitErr : AosErr
  resetFailedErr : AosErr
  removeErr : AosErr
  deriving DecidableEq, Repr

/-- `Runner::StopInstance`: erase the running unit, `StopUnit` (NotFound
forgiven), `ResetFailedUnit` (NotFound ignored), remove the drop-in
directory; the first surviving error is returned. -/
def StopInstance (cfg : RunnerConfig) (st : RunnerState) (instanceID : Str)
    (o : StopOracle) : AosErr × RunnerState :=
  let unitName := CreateSystemdUnitName instanceID
  let st1 := { st with mRunningUnits := aerase unitName st.mRunningUnits }
  let err1 := if o.stopUnitErr = .eNotFound then .eNone else o.stopUnitErr
  let err2 := if ¬o.resetFailedErr.isNone ∧ o.resetFailedErr ≠ .eNotFound
      ∧ err1.isNone then o.resetFailedErr else err1
  let (rmErr, fs2) := RemoveRunParameters cfg st1.fs unitName o.removeErr
  let err3 := if ¬rmErr.isNone ∧ err2.isNone then rmErr else err2
  (err3, { st1 with fs := fs2 })

/-! ### System traces (for the temporal claim) -/

/-- An externally triggered Runner operation together with its oracle. -/
inductive Event where
  | start (instanceID : Str) (params : RunParameters) (o : StartOracle)
  | stop (instanceID : Str) (o : StopOracle)
  | tick (t : TickInput)

/-- Runner state plus the history of all published statuses (the return
values of `StartInstance` and the arrays passed to
`RunStatusReceiverItf::UpdateRunStatus`). -/
structure SysState where
  runner : RunnerState
  emitted : List EmitRec

/-- One event of a system trace. -/
def stepEvent (cfg : RunnerConfig) (s : SysState) (e : Event) : SysState :=
  match e with
  | .start id params o =>
    let (rs, st', ems) := StartInstance cfg s.runner id params o
    { runner := st',
      emitted := s.emitted ++ ems.flatten
        ++ [⟨CreateSystemdUnitName id, rs.mState, none⟩] }
  | .stop id o => { s with runner := (StopInstance cfg s.runner id o).2 }
  | .tick t =>
    if s.runner.monitorRunning then
      let (st', em, _) := monitorStep s.runner t
      { runner := st', emitted := s.emitted ++ em.toList.flatten }
    else s

/-- A whole trace from a state. -/
def runTrace (cfg : RunnerConfig) (events : List Event) (s : SysState) : SysState :=
  events.foldl (stepEvent cfg) s

/-- The initial system: freshly started Runner, nothing published. -/
def initSys : SysState := ⟨initialRunnerState, []⟩

/-! ### Association-map lemmas -/

section AssocMapLemmas

variable {α : Type} {k a : Str} {v : α} {l : List (Str × α)}

theorem alookup_ainsert_self : alookup k (ainsert k v l) = some v := by
  induction l with
  | nil => simp [ainsert, alookup]
  | cons hd tl ih =>
    obtain ⟨a, b⟩ := hd
    by_cases h : a = k <;> simp [ainsert, alookup, h, ih]

theorem alookup_ainsert_ne (h : a ≠ k) :
    alookup a (ainsert k v l) = alookup a l := by
  have hka : ¬k = a := fun hh => h hh.symm
  induction l with
  | nil => simp [ainsert, alookup, hka]
  | cons hd tl ih =>
    obtain ⟨c, b⟩ := hd
    by_cases hc : c = k
    · subst hc
      simp [ainsert, alookup, hka]
    · by_cases hca : c = a <;> simp [ainsert, alookup, hc, hca, ih, h]

theorem alookup_aerase_self : alookup k (aerase k l) = none := by
  induction l with
  | nil => simp [aerase, alookup]
  | cons hd tl ih =>
    obtain ⟨a, b⟩ := hd
    by_cases h : a = k <;> simp [aerase, alookup, h, ih]

theorem mem_ainsert {x : Str × α} (h : x ∈ ainsert k v l) :
    x = (k, v) ∨ x ∈ l := by
  induction l with
  | nil => exact .inl (List.mem_singleton.mp h)
  | cons hd tl ih =>
    obtain ⟨a, b⟩ := hd
    by_cases hc : a = k
    · have he : ainsert k v ((a, b) :: tl) = (k, v) :: tl := by
        simp [ainsert, hc]
      rw [he] at h
      rcases List.mem_cons.mp h with h1 | h1
      · exact .inl h1
      · exact .inr (List.mem_cons_of_mem _ h1)
    · have he : ainsert k v ((a, b) :: tl) = (a, b) :: ainsert k v tl := by
        simp [ainsert, hc]
      rw [he] at h
      rcases List.mem_cons.mp h with h1 | h1
      · exact .inr (by simp [h1])
      · rcases ih h1 with h2 | h2
        · exact .inl h2
        · exact .inr (List.mem_cons_of_mem _ h2)

theorem mem_aerase {x : Str × α} (h : x ∈ aerase k l) : x ∈ l := by
  induction l with
  | nil => simpa [aerase] using h
  | cons hd tl ih =>
    obtain ⟨a, b⟩ := hd
    by_cases hc : a = k
    · simp only [aerase, if_pos hc] at h
      exact List.mem_cons_of_mem _ (ih h)
    · simp only [aerase, if_neg hc, List.mem_cons] at h
      rcases h with h | h
      · simp [h]
      · exact List.mem_cons_of_mem _ (ih h)

theorem alookup_mem (h : alookup k l = some v) : (k, v) ∈ l := by
  induction l with
  | nil => exact absurd h (by simp [alookup])
  | cons hd tl ih =>
    obtain ⟨a, b⟩ := hd
    by_cases hc : a = k
    · have he : alookup k ((a, b) :: tl) = some b := by simp [alookup, hc]
      rw [he] at h
      obtain rfl : b = v := by simpa using h
      subst hc
      exact List.mem_cons_self _ _
    · have he : alookup k ((a, b) :: tl) = alookup k tl := by simp [alookup, hc]
      rw [he] at h
      exact List.mem_cons_of_mem _ (ih h)

theorem alookup_filter_none {p : Str × α → Bool}
    (hp : ∀ v : α, p (k, v) = false) : alookup k (l.filter p) = none := by
  induction l with
  | nil => simp [alookup]
  | cons hd tl ih =>
    obtain ⟨a, b⟩ := hd
    by_cases hc : a = k
    · have hpb : p (a, b) = false := by rw [hc]; exact hp b
      simp [List.filter_cons, hpb, ih]
    · cases hpb : p (a, b) <;> simp [List.filter_cons, hpb, alookup, hc, ih]

end AssocMapLemmas

/-! ### Monitor-loop auxiliary lemmas -/

/-- `updateRunningUnit` never inserts a key that was absent. -/
theorem updateRunningUnit_none {k : Str} (ru : List (Str × RunningUnitData))
    (u : UnitInfo) (h : alookup k ru = none) :
    alookup k (updateRunningUnit ru u).1 = none := by
  unfold updateRunningUnit
  cases hlu : alookup u.mName ru with
  | none => simpa [hlu] using h
  | some d =>
    have hk : u.mName ≠ k := by
      intro he
      rw [he, h] at hlu
      exact absurd hlu (by simp)
    simp only [hlu]
    split
    · simpa using (alookup_ainsert_ne (Ne.symm hk)).trans h
    · simpa using h

/-- `updateUnitMaps` never inserts a running-unit key that was absent. -/
theorem updateUnitMaps_running_none {k : Str}
    (su : List (Str × StartingUnitData)) (ru : List (Str × RunningUnitData))
    (ch : Bool) (u : UnitInfo) (h : alookup k ru = none) :
    alookup k (updateUnitMaps (su, ru, ch) u).2.1 = none :=
  updateRunningUnit_none ru u h

/-- The monitor fold never inserts a running-unit key that was absent. -/
theorem foldl_updateUnitMaps_running_none {k : Str} (units : List UnitInfo)
    (acc : List (Str × StartingUnitData) × List (Str × RunningUnitData) × Bool)
    (h : alookup k acc.2.1 = none) :
    alookup k (units.foldl updateUnitMaps acc).2.1 = none := by
  induction units generalizing acc with
  | nil => simpa using h
  | cons u rest ih =>
    obtain ⟨su, ru, ch⟩ := acc
    exact ih _ (updateUnitMaps_running_none su ru ch u h)

/-- A monitor iteration does not touch the drop-in filesystem. -/
theorem monitorTickCore_fs (st : RunnerState) (units : List UnitInfo) :
    (monitorTickCore st units).1.fs = st.fs := rfl

/-- A monitor iteration never adds a running-unit entry. -/
theorem monitorTickCore_running_none {k : Str} (st : RunnerState)
    (units : List UnitInfo) (h : alookup k st.mRunningUnits = none) :
    alookup k (monitorTickCore st units).1.mRunningUnits = none :=
  foldl_updateUnitMaps_running_none units _ h

theorem monitorStep_fs (st : RunnerState) (t : TickInput) :
    (monitorStep st t).1.fs = st.fs := by
  unfold monitorStep
  split
  · rfl
  · cases t <;> rfl

theorem monitorStep_running_none {k : Str} (st : RunnerState) (t : TickInput)
    (h : alookup k st.mRunningUnits = none) :
    alookup k (monitorStep st t).1.mRunningUnits = none := by
  unfold monitorStep
  split
  · exact h
  · cases t with
    | error e => exact h
    | ok units => exact monitorTickCore_running_none st units h

theorem monitorRun_fs (st : RunnerState) (ticks : List TickInput) :
    (monitorRun st ticks).1.fs = st.fs := by
  induction ticks generalizing st with
  | nil => rfl
  | cons t rest ih =>
    unfold monitorRun
    cases hms : monitorStep st t with
    | mk st' rest' =>
      obtain ⟨em, r⟩ := rest'
      have hfs : st'.fs = st.fs := by
        have := monitorStep_fs st t
        rw [hms] at this
        exact this
      cases r with
      | some r0 => simpa using hfs
      | none => simpa using (ih st').trans hfs

theorem monitorRun_running_none {k : Str} (st : RunnerState)
    (ticks : List TickInput) (h : alookup k st.mRunningUnits = none) :
    alookup k (monitorRun st ticks).1.mRunningUnits = none := by
  induction ticks generalizing st with
  | nil => simpa using h
  | cons t rest ih =>
    unfold monitorRun
    cases hms : monitorStep st t with
    | mk st' rest' =>
      obtain ⟨em, r⟩ := rest'
      have h' : alookup k st'.mRunningUnits = none := by
        have := monitorStep_running_none st t h
        rw [hms] at this
        exact this
      cases r with
      | some r0 => simpa using h'
      | none => simpa using ih st' h'

/-! ### StartInstance decomposition -/

theorem isPrefixOf_append_self (l t : List Char) : l.isPrefixOf (l ++ t) = true :=
  List.isPrefixOf_iff_prefix.mpr ⟨t, rfl⟩

theorem isPrefixOf_self (l : List Char) : l.isPrefixOf l = true := by
  have := isPrefixOf_append_self l []
  simpa using this

/-- The drop-in filesystem state after a successful `SetRunParameters`. -/
def startFs (cfg : RunnerConfig) (fs : Fs) (unitName : Str)
    (p : FixedRunParameters) : Fs :=
  ⟨ainsert (dropInDir cfg unitName) 0o755 fs.dirs,
    ainsert (dropInFile cfg unitName) (0o644, parametersContent p) fs.files⟩

theorem SetRunParameters_ok (cfg : RunnerConfig) (fs : Fs) (unitName : Str)
    (p : FixedRunParameters) :
    SetRunParameters cfg fs unitName p .eNone .eNone =
      (.eNone, startFs cfg fs unitName p) := by
  simp [SetRunParameters, CreateDir, WriteStringToFile, startFs]

/-- The Runner state right after the successful drop-in write of a
`StartInstance` call. -/
def startStateInit (cfg : RunnerConfig) (st : RunnerState) (instanceID : Str)
    (params : RunParameters) : RunnerState :=
  { st with
      fs := startFs cfg st.fs (CreateSystemdUnitName instanceID)
        (fixParams cfg params) }

/-- The starting-unit entry read back when the wait of a `StartInstance` call
ends (initial `GetUnitStatus` observation, possibly overwritten by the
monitor iterations that ran during the wait). -/
def startWaitData (cfg : RunnerConfig) (st : RunnerState) (instanceID : Str)
    (params : RunParameters) (o : StartOracle) : StartingUnitData :=
  (waitStartingUnit (startStateInit cfg st instanceID params)
    (CreateSystemdUnitName instanceID) o).1

/-- The Runner state when the wait of a `StartInstance` call ends. -/
def startWaitState (cfg : RunnerConfig) (st : RunnerState) (instanceID : Str)
    (params : RunParameters) (o : StartOracle) : RunnerState :=
  (waitStartingUnit (startStateInit cfg st instanceID params)
    (CreateSystemdUnitName instanceID) o).2.1

/-- The statuses the monitor published during the wait. -/
def startWaitEms (cfg : RunnerConfig) (st : RunnerState) (instanceID : Str)
    (params : RunParameters) (o : StartOracle) : List (List EmitRec) :=
  (waitStartingUnit (startStateInit cfg st instanceID params)
    (CreateSystemdUnitName instanceID) o).2.2

/-- `StartInstance` on the path that reaches the wait: the drop-in write,
`StartUnit` and `GetUnitStatus` succeed, and the outcome is decided by the
state read back after the wait. -/
theorem StartInstance_run (cfg : RunnerConfig) (st : RunnerState)
    (instanceID : Str) (params : RunParameters) (o : StartOracle)
    (h1 : o.createDirErr = .eNone) (h2 : o.writeFileErr = .eNone)
    (h3 : o.startUnitErr = .eNone) (h4 : o.getStatusErr = .eNone) :
    StartInstance cfg st instanceID params o =
      if (startWaitData cfg st instanceID params o).mRunState ≠ .active then
        (⟨instanceID, .failed,
            match (startWaitData cfg st instanceID params o).mExitCode with
            | some c => .eRuntime c
            | none => .eFailed⟩,
          { startWaitState cfg st instanceID params o with
              mStartingUnits := aerase (CreateSystemdUnitName instanceID)
                (startWaitState cfg st instanceID params o).mStartingUnits },
          startWaitEms cfg st instanceID params o)
      else
        (⟨instanceID, .active, .eNone⟩,
          { startWaitState cfg st instanceID params o with
              mStartingUnits := aerase (CreateSystemdUnitName instanceID)
                (startWaitState cfg st instanceID params o).mStartingUnits
              mRunningUnits := ainsert (CreateSystemdUnitName instanceID)
                ⟨.active, (startWaitData cfg st instanceID params o).mExitCode⟩
                (startWaitState cfg st instanceID params o).mRunningUnits },
          startWaitEms cfg st instanceID params o) := by
  have hsrp := SetRunParameters_ok cfg st.fs (CreateSystemdUnitName instanceID)
    (fixParams cfg params)
  have hne : ¬(AosErr.eNone ≠ AosErr.eNone) := by simp
  simp only [StartInstance, h1, h2, h3, h4, hsrp, GetStartingUnitState,
    startWaitData, startWaitState, startWaitEms, startStateInit]
  rw [if_neg hne, if_neg hne, if_neg hne]
  split <;> rfl

theorem startWaitState_eq (cfg : RunnerConfig) (st : RunnerState)
    (instanceID : Str) (params : RunParameters) (o : StartOracle) :
    startWaitState cfg st instanceID params o
      = (monitorRun (insertStartingUnit (startStateInit cfg st instanceID params)
          (CreateSystemdUnitName instanceID) o) o.ticks).1 := rfl

theorem startWaitState_fs (cfg : RunnerConfig) (st : RunnerState)
    (instanceID : Str) (params : RunParameters) (o : StartOracle) :
    (startWaitState cfg st instanceID params o).fs
      = startFs cfg st.fs (CreateSystemdUnitName instanceID) (fixParams cfg params) := by
  rw [startWaitState_eq, monitorRun_fs]
  rfl

theorem startWaitState_running_none (cfg : RunnerConfig) (st : RunnerState)
    (instanceID : Str) (params : RunParameters) (o : StartOracle)
    (h : alookup (CreateSystemdUnitName instanceID) st.mRunningUnits = none) :
    alookup (CreateSystemdUnitName instanceID)
      (startWaitState cfg st instanceID params o).mRunningUnits = none := by
  rw [startWaitState_eq]
  exact monitorRun_running_none _ _ h

/-- `StopInstance` always attempts the drop-in removal; when the filesystem
call succeeds, neither the drop-in directory nor the parameters file
survive. -/
theorem StopInstance_removes_dropins (cfg : RunnerConfig) (st : RunnerState)
    (instanceID : Str) (o' : StopOracle) (ho' : o'.removeErr = .eNone) :
    alookup (dropInDir cfg (CreateSystemdUnitName instanceID))
      (StopInstance cfg st instanceID o').2.fs.dirs = none ∧
    alookup (dropInFile cfg (CreateSystemdUnitName instanceID))
      (StopInstance cfg st instanceID o').2.fs.files = none := by
  have hne : ¬(AosErr.eNone ≠ AosErr.eNone) := by simp
  simp only [StopInstance, RemoveRunParameters, ho']
  rw [if_neg hne]
  constructor
  · apply alookup_filter_none
    intro v
    simp [isPrefixOf_self]
  · apply alookup_filter_none
    intro v
    simp [dropInFile, isPrefixOf_append_self]

/-- C2: when the unit does not reach `Active` within the wait, `StartInstance`
returns `Failed` carrying the reported exit code, the starting-unit entry is
erased, no running-unit entry is added, and the drop-in directory stays on
disk until `StopInstance` removes it. -/
theorem C2_start_failure (cfg : RunnerConfig) (st : RunnerState)
    (instanceID : Str) (params : RunParameters) (o : StartOracle)
    (h1 : o.createDirErr = .eNone) (h2 : o.writeFileErr = .eNone)
    (h3 : o.startUnitErr = .eNone) (h4 : o.getStatusErr = .eNone)
    (hfail : (startWaitData cfg st instanceID params o).mRunState ≠ .active) :
    (StartInstance cfg st instanceID params o).1.mState = .failed ∧
    (StartInstance cfg st instanceID params o).1.mError =
      (match (startWaitData cfg st instanceID params o).mExitCode with
        | some c => AosErr.eRuntime c
        | none => AosErr.eFailed) ∧
    alookup (CreateSystemdUnitName instanceID)
      (StartInstance cfg st instanceID params o).2.1.mStartingUnits = none ∧
    (alookup (CreateSystemdUnitName instanceID) st.mRunningUnits = none →
      alookup (CreateSystemdUnitName instanceID)
        (StartInstance cfg st instanceID params o).2.1.mRunningUnits = none) ∧
    alookup (dropInDir cfg (CreateSystemdUnitName instanceID))
      (StartInstance cfg st instanceID params o).2.1.fs.dirs = some 0o755 ∧
    (∀ o' : StopOracle, o'.removeErr = .eNone →
      alookup (dropInDir cfg (CreateSystemdUnitName instanceID))
        (StopInstance cfg (StartInstance cfg st instanceID params o).2.1
          instanceID o').2.fs.dirs = none) := by
  rw [StartInstance_run cfg st instanceID params o h1 h2 h3 h4, if_pos hfail]
  refine ⟨rfl, rfl, alookup_aerase_self, ?_, ?_, ?_⟩
  · intro h
    exact startWaitState_running_none cfg st instanceID params o h
  · show alookup _ (startWaitState cfg st instanceID params o).fs.dirs = _
    rw [startWaitState_fs]
    exact alookup_ainsert_self
  · intro o' ho'
    exact (StopInstance_removes_dropins cfg _ instanceID o' ho').1

/-- Concrete instantiation of the modelled `runner.hpp` constants, used by
the witnesses. -/
def testRunnerConfig : RunnerConfig :=
  ⟨"/run/systemd/system".toList, "parameters.conf".toList,
    5 * nsPerSec, 3, 6 * nsPerSec⟩

/-- The start oracle of spec scenario 6: the unit is first observed
`activating` and the monitor then reports `failed` with exit code 137. -/
def failOracle137 : StartOracle :=
  ⟨.eNone, .eNone, .eNone, .eNone, .activating, none,
    [Except.ok [⟨CreateSystemdUnitName "id0".toList, .failed, some 137⟩]]⟩

/-- Witness for C2 at scenario 6 (`StartInstance` sees `failed`, exit 137). -/
theorem C2_start_failure_witness :
    ((startWaitData testRunnerConfig initialRunnerState "id0".toList
        ⟨none, none, none⟩ failOracle137).mRunState ≠ UnitState.active) ∧
    (StartInstance testRunnerConfig initialRunnerState "id0".toList
        ⟨none, none, none⟩ failOracle137).1.mState = .failed ∧
    (StartInstance testRunnerConfig initialRunnerState "id0".toList
        ⟨none, none, none⟩ failOracle137).1.mError = .eRuntime 137 ∧
    alookup (CreateSystemdUnitName "id0".toList)
      (StartInstance testRunnerConfig initialRunnerState "id0".toList
        ⟨none, none, none⟩ failOracle137).2.1.mStartingUnits = none ∧
    alookup (CreateSystemdUnitName "id0".toList)
      (StartInstance testRunnerConfig initialRunnerState "id0".toList
        ⟨none, none, none⟩ failOracle137).2.1.mRunningUnits = none ∧
    alookup (dropInDir testRunnerConfig (CreateSystemdUnitName "id0".toList))
      (StartInstance testRunnerConfig initialRunnerState "id0".toList
        ⟨none, none, none⟩ failOracle137).2.1.fs.dirs = some 0o755 := by
  have h := C2_start_failure testRunnerConfig initialRunnerState "id0".toList
    ⟨none, none, none⟩ failOracle137 rfl rfl rfl rfl (by decide)
  refine ⟨by decide, h.1, ?_, h.2.2.1, h.2.2.2.1 (by decide), h.2.2.2.2.1⟩
  rw [h.2.1]
  decide

/-- C5: absent run parameters are filled with the defaults; before the unit
is started a drop-in file with a `[Unit]` section (`StartLimitIntervalSec`,
`StartLimitBurst`) and a `[Service]` section (`RestartSec`), all derived from
the fixed parameters, is written into `<dropInsDir>/<unitName>.d` (directory
mode 0755, file mode 0644); `StopInstance` removes that directory. -/
theorem C5_drop_in_parameters (cfg : RunnerConfig) (st : RunnerState)
    (instanceID : Str) (params : RunParameters) (o : StartOracle)
    (h1 : o.createDirErr = .eNone) (h2 : o.writeFileErr = .eNone) :
    dropInDir cfg (CreateSystemdUnitName instanceID)
      = cfg.cSystemdDropInsDir ++ ('/' :: CreateSystemdUnitName instanceID)
        ++ ".d".toList ∧
    alookup (dropInDir cfg (CreateSystemdUnitName instanceID))
      (StartInstance cfg st instanceID params o).2.1.fs.dirs = some 0o755 ∧
    alookup (dropInFile cfg (CreateSystemdUnitName instanceID))
      (StartInstance cfg st instanceID params o).2.1.fs.files = some (0o644,
        "[Unit]\nStartLimitIntervalSec=".toList
          ++ toStrNat ((params.mStartInterval.getD
              cfg.cDefaultStartInterval).seconds % 2 ^ 32)
          ++ "s\nStartLimitBurst=".toList
          ++ toStrInt (params.mStartBurst.getD cfg.cDefaultStartBurst)
          ++ "\n\n[Service]\nRestartSec=".toList
          ++ toStrNat ((params.mRestartInterval.getD
              cfg.cDefaultRestartInterval).seconds % 2 ^ 32)
          ++ "s\n".toList) ∧
    (∀ o' : StopOracle, o'.removeErr = .eNone →
      alookup (dropInDir cfg (CreateSystemdUnitName instanceID))
        (StopInstance cfg (StartInstance cfg st instanceID params o).2.1
          instanceID o').2.fs.dirs = none ∧
      alookup (dropInFile cfg (CreateSystemdUnitName instanceID))
        (StopInstance cfg (StartInstance cfg st instanceID params o).2.1
          instanceID o').2.fs.files = none) := by
  have hfs : (StartInstance cfg st instanceID params o).2.1.fs
      = startFs cfg st.fs (CreateSystemdUnitName instanceID)
        (fixParams cfg params) := by
    by_cases h3 : o.startUnitErr = .eNone
    · by_cases h4 : o.getStatusErr = .eNone
      · rw [StartInstance_run cfg st instanceID params o h1 h2 h3 h4]
        split
        · show (startWaitState cfg st instanceID params o).fs = _
          exact startWaitState_fs cfg st instanceID params o
        · show (startWaitState cfg st instanceID params o).fs = _
          exact startWaitState_fs cfg st instanceID params o
      · have hsrp := SetRunParameters_ok cfg st.fs
          (CreateSystemdUnitName instanceID) (fixParams cfg params)
        have hne : ¬(AosErr.eNone ≠ AosErr.eNone) := by simp
        simp only [StartInstance, h1, h2, h3, hsrp, GetStartingUnitState]
        rw [if_neg hne, if_neg hne, if_pos h4]
    · have hsrp := SetRunParameters_ok cfg st.fs
        (CreateSystemdUnitName instanceID) (fixParams cfg params)
      have hne : ¬(AosErr.eNone ≠ AosErr.eNone) := by simp
      simp only [StartInstance, h1, h2, hsrp]
      rw [if_neg hne, if_pos h3]
  refine ⟨rfl, ?_, ?_, ?_⟩
  · rw [hfs]
    exact alookup_ainsert_self
  · rw [hfs]
    show alookup _ (ainsert _ (0o644, parametersContent (fixParams cfg params)) _)
      = _
    rw [alookup_ainsert_self]
    rfl
  · intro o' ho'
    exact StopInstance_removes_dropins cfg _ instanceID o' ho'

/-- Witness for C5: all parameters absent, so the defaults of the
configuration are written (start interval 5 s, burst 3, restart 6 s). -/
theorem C5_drop_in_parameters_witness :
    alookup (dropInDir testRunnerConfig (CreateSystemdUnitName "id0".toList))
      (StartInstance testRunnerConfig initialRunnerState "id0".toList
        ⟨none, none, none⟩ failOracle137).2.1.fs.dirs = some 0o755 ∧
    alookup (dropInFile testRunnerConfig (CreateSystemdUnitName "id0".toList))
      (StartInstance testRunnerConfig initialRunnerState "id0".toList
        ⟨none, none, none⟩ failOracle137).2.1.fs.files = some (0o644,
        ("[Unit]\nStartLimitIntervalSec=5s\nStartLimitBurst=3\n\n"
          ++ "[Service]\nRestartSec=6s\n").toList) ∧
    ((⟨.eNone, .eNone, .eNone⟩ : StopOracle).removeErr = .eNone ∧
      alookup (dropInDir testRunnerConfig (CreateSystemdUnitName "id0".toList))
        (StopInstance testRunnerConfig
          (StartInstance testRunnerConfig initialRunnerState "id0".toList
            ⟨none, none, none⟩ failOracle137).2.1 "id0".toList
          ⟨.eNone, .eNone, .eNone⟩).2.fs.dirs = none) := by
  have h := C5_drop_in_parameters testRunnerConfig initialRunnerState
    "id0".toList ⟨none, none, none⟩ failOracle137 rfl rfl
  refine ⟨h.2.1, ?_, rfl, (h.2.2.2 ⟨.eNone, .eNone, .eNone⟩ rfl).1⟩
  rw [h.2.2.1]
  decide

theorem isNone_iff (e : AosErr) : e.isNone = true ↔ e = .eNone := by
  cases e <;> simp [AosErr.isNone]

theorem RemoveRunParameters_fst (cfg : RunnerConfig) (fs : Fs) (unitName : Str)
    (rm : AosErr) : (RemoveRunParameters cfg fs unitName rm).1 = rm := by
  unfold RemoveRunParameters
  split <;> simp_all

/-- The returned error of `StopInstance` as a function of the three
supervisor/filesystem outcomes. -/
theorem StopInstance_fst (cfg : RunnerConfig) (st : RunnerState)
    (instanceID : Str) (o : StopOracle) :
    (StopInstance cfg st instanceID o).1 =
      (let err1 := if o.stopUnitErr = .eNotFound then AosErr.eNone
        else o.stopUnitErr
       let err2 := if ¬o.resetFailedErr.isNone ∧ o.resetFailedErr ≠ .eNotFound
          ∧ err1.isNone then o.resetFailedErr else err1
       if ¬o.removeErr.isNone ∧ err2.isNone then o.removeErr else err2) := by
  simp only [StopInstance, RemoveRunParameters_fst]

/-- C9 counterexample: with `StopUnit` and `ResetFailedUnit` succeeding and
the drop-in removal failing with `NotFound`, `StopInstance` returns
`NotFound` — not the success the claim's "first non-NotFound error" rule
demands. -/
theorem C9_stop_notfound_counterexample :
    (StopInstance testRunnerConfig initialRunnerState "id0".toList
      ⟨.eNone, .eNone, .eNotFound⟩).1 = .eNotFound ∧
    AosErr.eNotFound ≠ AosErr.eNone := by
  constructor
  · rw [StopInstance_fst]
    decide
  · decide

/-- C9 (amended): `StopInstance` always erases the unit from
`mRunningUnits` first and always attempts the drop-in removal; `NotFound`
from `StopUnit` is converted to success and `NotFound` from
`ResetFailedUnit` is ignored; the first non-NotFound error among `StopUnit`
and `ResetFailedUnit` is returned, but **any** error of the drop-in removal
— including `NotFound` — is returned when the first two stages produced
none. -/
theorem C9_stop_instance (cfg : RunnerConfig) (st : RunnerState)
    (instanceID : Str) (o : StopOracle) :
    (StopInstance cfg st instanceID o).2.mRunningUnits
      = aerase (CreateSystemdUnitName instanceID) st.mRunningUnits ∧
    (o.stopUnitErr = .eNotFound → o.resetFailedErr = .eNone →
      o.removeErr = .eNone → (StopInstance cfg st instanceID o).1 = .eNone) ∧
    (o.stopUnitErr = .eNone → o.resetFailedErr = .eNotFound →
      o.removeErr = .eNone → (StopInstance cfg st instanceID o).1 = .eNone) ∧
    (o.removeErr = .eNone →
      alookup (dropInDir cfg (CreateSystemdUnitName instanceID))
        (StopInstance cfg st instanceID o).2.fs.dirs = none) ∧
    (o.stopUnitErr ≠ .eNone → o.stopUnitErr ≠ .eNotFound →
      (StopInstance cfg st instanceID o).1 = o.stopUnitErr) ∧
    ((o.stopUnitErr = .eNone ∨ o.stopUnitErr = .eNotFound) →
      o.resetFailedErr ≠ .eNone → o.resetFailedErr ≠ .eNotFound →
      (StopInstance cfg st instanceID o).1 = o.resetFailedErr) ∧
    ((o.stopUnitErr = .eNone ∨ o.stopUnitErr = .eNotFound) →
      (o.resetFailedErr = .eNone ∨ o.resetFailedErr = .eNotFound) →
      o.removeErr ≠ .eNone →
      (StopInstance cfg st instanceID o).1 = o.removeErr) := by
  obtain ⟨se, re, rm⟩ := o
  refine ⟨rfl, ?_, ?_, ?_, ?_, ?_, ?_⟩
  · rintro rfl rfl rfl
    rw [StopInstance_fst]
    decide
  · rintro rfl rfl rfl
    rw [StopInstance_fst]
    decide
  · intro h
    exact (StopInstance_removes_dropins cfg st instanceID ⟨se, re, rm⟩ h).1
  · intro hs1 hs2
    rw [StopInstance_fst]
    simp only [if_neg hs2]
    have : ¬se.isNone = true := by
      rw [isNone_iff]
      exact hs1
    simp [this]
  · rintro (rfl | rfl) hr1 hr2 <;>
      (rw [StopInstance_fst]
       simp [isNone_iff, hr1, hr2, AosErr.isNone])
  · rintro (rfl | rfl) (rfl | rfl) hm <;>
      (rw [StopInstance_fst]
       simp [isNone_iff, hm, AosErr.isNone])

/-- Witness for C9: a not-loaded unit (`StopUnit` returns `NotFound`,
everything else succeeds) stops successfully; a drop-in removal error is
returned when the first two stages are clean. -/
theorem C9_stop_instance_witness :
    (StopInstance testRunnerConfig initialRunnerState "id0".toList
      ⟨.eNotFound, .eNone, .eNone⟩).1 = .eNone ∧
    (StopInstance testRunnerConfig initialRunnerState "id0".toList
      ⟨.eNone, .eNone, .eRuntime 13⟩).1 = .eRuntime 13 ∧
    (StopInstance testRunnerConfig initialRunnerState "id0".toList
      ⟨.eNotFound, .eNone, .eNone⟩).2.mRunningUnits
      = aerase (CreateSystemdUnitName "id0".toList)
          initialRunnerState.mRunningUnits :=
  ⟨(C9_stop_instance testRunnerConfig initialRunnerState "id0".toList
      ⟨.eNotFound, .eNone, .eNone⟩).2.1 rfl rfl rfl,
    (C9_stop_instance testRunnerConfig initialRunnerState "id0".toList
      ⟨.eNone, .eNone, .eRuntime 13⟩).2.2.2.2.2.2 (.inl rfl) (.inl rfl)
      (by decide),
    (C9_stop_instance testRunnerConfig initialRunnerState "id0".toList
      ⟨.eNotFound, .eNone, .eNone⟩).1⟩

/-- C4 counterexample: a `ListUnits` transport failure does **not** leave the
monitor running: the loop logs the error and returns immediately — the
following (processable) iteration is never seen, no unit is ever observed,
and the exit reason is the `ListUnits` failure, not the closed signal. -/
theorem C4_monitor_error_counterexample :
    (monitorRun initialRunnerState
      [Except.error (AosErr.eOther 1),
        Except.ok [⟨CreateSystemdUnitName "id0".toList, UnitState.active, none⟩]]).2.2
      = some .listUnitsFailed ∧
    (monitorRun initialRunnerState
      [Except.error (AosErr.eOther 1),
        Except.ok [⟨CreateSystemdUnitName "id0".toList, UnitState.active, none⟩]]).1.monitorRunning
      = false ∧
    (monitorRun initialRunnerState
      [Except.error (AosErr.eOther 1),
        Except.ok [⟨CreateSystemdUnitName "id0".toList, UnitState.active, none⟩]]).1.logs
      = [.eOther 1] ∧
    (monitorRun initialRunnerState
      [Except.error (AosErr.eOther 1),
        Except.ok [⟨CreateSystemdUnitName "id0".toList, UnitState.active, none⟩]]).1.observedActive
      = [] := by
  decide

/-- C4 (amended): **any** `ListUnits` failure in the monitor thread is
logged (`LOG_ERR`) and makes the monitor exit immediately — the unit maps
are untouched, no status is published, and no further iteration runs; the
`mClosed` signal is the other exit path; the next `Start()` restarts the
monitor. -/
theorem C4_monitor_error_exits (st : RunnerState) (e : AosErr)
    (ticks : List TickInput) (h : st.mClosed = false) :
    (monitorRun st (.error e :: ticks)).1.logs = st.logs ++ [e] ∧
    (monitorRun st (.error e :: ticks)).2.2 = some .listUnitsFailed ∧
    (monitorRun st (.error e :: ticks)).1.monitorRunning = false ∧
    (monitorRun st (.error e :: ticks)).2.1 = [] ∧
    (monitorRun st (.error e :: ticks)).1.mStartingUnits = st.mStartingUnits ∧
    (monitorRun st (.error e :: ticks)).1.mRunningUnits = st.mRunningUnits ∧
    (RunnerStart (monitorRun st (.error e :: ticks)).1 .eNone).2.monitorRunning
      = true ∧
    (∀ t ts, (monitorRun { st with mClosed := true } (t :: ts)).2.2
      = some .closedSignal) := by
  have hstep : monitorStep st (.error e)
      = ({ st with logs := st.logs ++ [e], monitorRunning := false }, none,
        some .listUnitsFailed) := by
    unfold monitorStep
    rw [if_neg (by simp [h])]
  refine ⟨?_, ?_, ?_, ?_, ?_, ?_, ?_, ?_⟩
  · show (monitorRun st (.error e :: ticks)).1.logs = _
    unfold monitorRun
    rw [hstep]
  · unfold monitorRun
    rw [hstep]
  · unfold monitorRun
    rw [hstep]
  · unfold monitorRun
    rw [hstep]
    rfl
  · unfold monitorRun
    rw [hstep]
  · unfold monitorRun
    rw [hstep]
  · unfold monitorRun
    rw [hstep]
    rfl
  · intro t ts
    unfold monitorRun
    unfold monitorStep
    rw [if_pos (by simp)]

/-- Witness for C4 at a concrete state and error. -/
theorem C4_monitor_error_exits_witness :
    initialRunnerState.mClosed = false ∧
    (monitorRun initialRunnerState [Except.error .eFailed]).1.logs = [.eFailed] ∧
    (monitorRun initialRunnerState [Except.error .eFailed]).2.2
      = some .listUnitsFailed ∧
    (RunnerStart (monitorRun initialRunnerState [Except.error .eFailed]).1
      .eNone).2.monitorRunning = true := by
  have h := C4_monitor_error_exits initialRunnerState .eFailed [] rfl
  exact ⟨rfl, h.1, h.2.1, h.2.2.2.2.2.2.1⟩

/-! ### The observation invariant (claim C3) -/

/-- Every starting unit recorded `active` was observed `active`. -/
def suInv (su : List (Str × StartingUnitData)) (obs : List Str) : Prop :=
  ∀ u d, (u, d) ∈ su → d.mRunState = UnitState.active → u ∈ obs

/-- Every running unit recorded `Active` was observed `active`. -/
def ruInv (ru : List (Str × RunningUnitData)) (obs : List Str) : Prop :=
  ∀ u d, (u, d) ∈ ru → d.mRunState = InstanceRunState.active → u ∈ obs

/-- Both unit maps only record `active` for observed-`active` units. -/
def obsInv (st : RunnerState) : Prop :=
  suInv st.mStartingUnits st.observedActive ∧
  ruInv st.mRunningUnits st.observedActive

theorem suInv_mono {su obs obs'} (h : obs ⊆ obs') (hs : suInv su obs) :
    suInv su obs' := fun u d hm ha => h (hs u d hm ha)

theorem ruInv_mono {ru obs obs'} (h : obs ⊆ obs') (hs : ruInv ru obs) :
    ruInv ru obs' := fun u d hm ha => h (hs u d hm ha)

theorem ToInstanceState_active {s : UnitState}
    (h : ToInstanceState s = .active) : s = .active := by
  by_cases hs : s = .active
  · exact hs
  · simp [ToInstanceState, hs] at h

theorem updateStartingUnit_inv {obs : List Str} (su : List (Str × StartingUnitData))
    (u : UnitInfo) (hu : u.mActiveState = .active → u.mName ∈ obs)
    (h1 : suInv su obs) : suInv (updateStartingUnit su u) obs := by
  unfold updateStartingUnit
  cases hlu : alookup u.mName su with
  | none => exact h1
  | some d0 =>
    intro k dd hm ha
    rcases mem_ainsert hm with he | hin
    · obtain ⟨hk, hd⟩ := Prod.mk.injEq .. ▸ he
      subst hk
      rw [hd] at ha
      exact hu ha
    · exact h1 k dd hin ha

theorem updateRunningUnit_inv {obs : List Str} (ru : List (Str × RunningUnitData))
    (u : UnitInfo) (hu : u.mActiveState = .active → u.mName ∈ obs)
    (h2 : ruInv ru obs) : ruInv (updateRunningUnit ru u).1 obs := by
  unfold updateRunningUnit
  cases hlu : alookup u.mName ru with
  | none => exact h2
  | some d =>
    simp only [hlu]
    split
    · intro k dd hm ha
      rcases mem_ainsert hm with he | hin
      · obtain ⟨hk, hd⟩ := Prod.mk.injEq .. ▸ he
        subst hk
        rw [hd] at ha
        exact hu (ToInstanceState_active ha)
      · exact h2 k dd hin ha
    · exact h2

theorem foldl_updateUnitMaps_inv {obs : List Str} (units : List UnitInfo)
    (hus : ∀ u ∈ units, u.mActiveState = .active → u.mName ∈ obs) :
    ∀ acc : List (Str × StartingUnitData) × List (Str × RunningUnitData) × Bool,
      suInv acc.1 obs → ruInv acc.2.1 obs →
      suInv (units.foldl updateUnitMaps acc).1 obs ∧
        ruInv (units.foldl updateUnitMaps acc).2.1 obs := by
  induction units with
  | nil => exact fun acc h1 h2 => ⟨h1, h2⟩
  | cons u rest ih =>
    intro acc h1 h2
    obtain ⟨su, ru, ch⟩ := acc
    have hu : u.mActiveState = .active → u.mName ∈ obs :=
      hus u (List.mem_cons_self _ _)
    exact ih (fun w hw => hus w (List.mem_cons_of_mem _ hw)) _
      (updateStartingUnit_inv su u hu h1) (updateRunningUnit_inv ru u hu h2)

/-- The array published by a monitor iteration is exactly
`GetRunningInstances` of the folded running map. -/
theorem monitorTickCore_emission (st : RunnerState) (units : List UnitInfo)
    (em : List EmitRec) (hem : (monitorTickCore st units).2 = some em) :
    em = GetRunningInstances
      ((units.foldl updateUnitMaps
        (st.mStartingUnits, st.mRunningUnits, false)).2.1) := by
  simp only [monitorTickCore] at hem
  split at hem
  · exact (Option.some.injEq _ _ ▸ hem).symm
  · exact absurd hem (by simp)

theorem monitorTickCore_inv (st : RunnerState) (units : List UnitInfo)
    (h : obsInv st) :
    obsInv (monitorTickCore st units).1 ∧
    st.observedActive ⊆ (monitorTickCore st units).1.observedActive ∧
    (∀ em, (monitorTickCore st units).2 = some em →
      ∀ r ∈ em, r.state = InstanceRunState.active →
        r.unit ∈ (monitorTickCore st units).1.observedActive) := by
  have hobs' : (monitorTickCore st units).1.observedActive
      = st.observedActive
        ++ (units.filter fun u => u.mActiveState == UnitState.active).map
          (·.mName) := rfl
  have hsub : st.observedActive ⊆ (monitorTickCore st units).1.observedActive := by
    rw [hobs']
    exact List.subset_append_left _ _
  have hus : ∀ u ∈ units, u.mActiveState = .active →
      u.mName ∈ (monitorTickCore st units).1.observedActive := by
    intro u hu ha
    rw [hobs']
    refine List.mem_append_right _ ?_
    exact List.mem_map.mpr ⟨u, List.mem_filter.mpr ⟨hu, by simp [ha]⟩, rfl⟩
  have hfold := foldl_updateUnitMaps_inv units hus
    (st.mStartingUnits, st.mRunningUnits, false)
    (suInv_mono hsub h.1) (ruInv_mono hsub h.2)
  refine ⟨⟨hfold.1, hfold.2⟩, hsub, ?_⟩
  intro em hem r hr ha
  rw [monitorTickCore_emission st units em hem] at hr
  obtain ⟨⟨k, dd⟩, hmem, rfl⟩ := List.mem_map.mp hr
  exact hfold.2 k dd hmem ha

theorem monitorStep_inv (st : RunnerState) (t : TickInput) (h : obsInv st) :
    obsInv (monitorStep st t).1 ∧
    st.observedActive ⊆ (monitorStep st t).1.observedActive ∧
    (∀ em, (monitorStep st t).2.1 = some em →
      ∀ r ∈ em, r.state = InstanceRunState.active →
        r.unit ∈ (monitorStep st t).1.observedActive) := by
  unfold monitorStep
  split
  · exact ⟨h, fun x hx => hx, by intro em hem; exact absurd hem (by simp)⟩
  · cases t with
    | error e =>
      exact ⟨h, fun x hx => hx, by intro em hem; exact absurd hem (by simp)⟩
    | ok units =>
      exact monitorTickCore_inv st units h

theorem monitorRun_inv (st : RunnerState) (ticks : List TickInput)
    (h : obsInv st) :
    obsInv (monitorRun st ticks).1 ∧
    st.observedActive ⊆ (monitorRun st ticks).1.observedActive ∧
    (∀ r ∈ (monitorRun st ticks).2.1.flatten,
      r.state = InstanceRunState.active →
        r.unit ∈ (monitorRun st ticks).1.observedActive) := by
  induction ticks generalizing st with
  | nil => exact ⟨h, fun x hx => hx, by simp [monitorRun]⟩
  | cons t rest ih =>
    obtain ⟨hs1, hs2, hs3⟩ := monitorStep_inv st t h
    unfold monitorRun
    cases hms : monitorStep st t with
    | mk st' p =>
      obtain ⟨em, r⟩ := p
      rw [hms] at hs1 hs2 hs3
      cases r with
      | some r0 =>
        refine ⟨hs1, hs2, ?_⟩
        intro rr hrr ha
        cases em with
        | none => simp at hrr
        | some e0 =>
          simp only [Option.toList, List.flatten] at hrr
          rw [List.append_nil] at hrr
          exact hs3 e0 rfl rr hrr ha
      | none =>
        obtain ⟨ih1, ih2, ih3⟩ := ih st' hs1
        refine ⟨ih1, fun x hx => ih2 (hs2 hx), ?_⟩
        intro rr hrr ha
        simp only [List.flatten_append] at hrr
        rcases List.mem_append.mp hrr with hl | hr
        · cases em with
          | none => simp at hl
          | some e0 =>
            simp only [Option.toList, List.flatten] at hl
            rw [List.append_nil] at hl
            exact ih2 (hs3 e0 rfl rr hl ha)
        · exact ih3 rr hr ha

theorem insertStartingUnit_inv (st : RunnerState) (unitName : Str)
    (o : StartOracle) (h : obsInv st) :
    obsInv (insertStartingUnit st unitName o) ∧
    st.observedActive ⊆ (insertStartingUnit st unitName o).observedActive := by
  have hsub : st.observedActive ⊆ (insertStartingUnit st unitName o).observedActive :=
    List.subset_append_left _ _
  refine ⟨⟨?_, ruInv_mono hsub h.2⟩, hsub⟩
  intro k d hm ha
  rcases mem_ainsert hm with he | hin
  · obtain ⟨hk, hd⟩ := Prod.mk.injEq .. ▸ he
    subst hk
    rw [hd] at ha
    show k ∈ st.observedActive ++ _
    refine List.mem_append_right _ ?_
    rw [show (⟨o.initialState, o.initialExitCode⟩ : StartingUnitData).mRunState
      = o.initialState from rfl] at ha
    simp [ha]
  · exact hsub (h.1 k d hin ha)

theorem waitStartingUnit_state (st : RunnerState) (unitName : Str)
    (o : StartOracle) :
    (waitStartingUnit st unitName o).2.1
      = (monitorRun (insertStartingUnit st unitName o) o.ticks).1 := rfl

theorem waitStartingUnit_ems (st : RunnerState) (unitName : Str)
    (o : StartOracle) :
    (waitStartingUnit st unitName o).2.2
      = (monitorRun (insertStartingUnit st unitName o) o.ticks).2.1 := rfl

/-- The unit read back `active` after the wait was observed `active`. -/
theorem waitStartingUnit_active_observed (st : RunnerState) (unitName : Str)
    (o : StartOracle) (h : obsInv st)
    (ha : (waitStartingUnit st unitName o).1.mRunState = UnitState.active) :
    unitName ∈ (waitStartingUnit st unitName o).2.1.observedActive := by
  have hi := insertStartingUnit_inv st unitName o h
  have hm := monitorRun_inv (insertStartingUnit st unitName o) o.ticks hi.1
  rw [waitStartingUnit_state]
  cases hlu : alookup unitName
      (monitorRun (insertStartingUnit st unitName o) o.ticks).1.mStartingUnits with
  | some dd =>
    have hd : (waitStartingUnit st unitName o).1 = dd := by
      simp [waitStartingUnit, hlu]
    rw [hd] at ha
    exact hm.1.1 unitName dd (alookup_mem hlu) ha
  | none =>
    have hd : (waitStartingUnit st unitName o).1
        = ⟨o.initialState, o.initialExitCode⟩ := by
      simp [waitStartingUnit, hlu]
    rw [hd] at ha
    have hains : o.initialState = UnitState.active := ha
    have hins : unitName ∈ (insertStartingUnit st unitName o).observedActive := by
      unfold insertStartingUnit
      refine List.mem_append_right _ ?_
      simp [hains]
    exact hm.2.1 hins

theorem GetStartingUnitState_inv (st : RunnerState) (unitName : Str)
    (o : StartOracle) (h : obsInv st) :
    obsInv (GetStartingUnitState st unitName o).2.1 ∧
    st.observedActive ⊆ (GetStartingUnitState st unitName o).2.1.observedActive ∧
    (∀ r ∈ (GetStartingUnitState st unitName o).2.2.flatten,
      r.state = InstanceRunState.active →
        r.unit ∈ (GetStartingUnitState st unitName o).2.1.observedActive) ∧
    ((GetStartingUnitState st unitName o).1.1 = InstanceRunState.active →
      unitName ∈ (GetStartingUnitState st unitName o).2.1.observedActive) := by
  unfold GetStartingUnitState
  by_cases hg : o.getStatusErr ≠ .eNone
  · rw [if_pos hg]
    exact ⟨h, fun x hx => hx, by simp, by intro hx; exact absurd hx (by simp)⟩
  · rw [if_neg hg]
    have hi := insertStartingUnit_inv st unitName o h
    have hm := monitorRun_inv (insertStartingUnit st unitName o) o.ticks hi.1
    rcases hw : waitStartingUnit st unitName o with ⟨d, st2, ems⟩
    have hst2eq : st2 = (monitorRun (insertStartingUnit st unitName o) o.ticks).1 := by
      have hx := waitStartingUnit_state st unitName o
      rw [hw] at hx
      exact hx
    have hemseq : ems = (monitorRun (insertStartingUnit st unitName o) o.ticks).2.1 := by
      have hx := waitStartingUnit_ems st unitName o
      rw [hw] at hx
      exact hx
    have hst2 : obsInv st2 := by rw [hst2eq]; exact hm.1
    have hsub2 : st.observedActive ⊆ st2.observedActive := by
      rw [hst2eq]
      exact fun x hx => hm.2.1 (hi.2 hx)
    have hems : ∀ r ∈ ems.flatten, r.state = InstanceRunState.active →
        r.unit ∈ st2.observedActive := by
      rw [hst2eq, hemseq]
      exact hm.2.2
    have hdobs : d.mRunState = UnitState.active → unitName ∈ st2.observedActive := by
      intro ha
      have hx := waitStartingUnit_active_observed st unitName o h
        (by rw [hw]; exact ha)
      rw [hw] at hx
      exact hx
    have herase : obsInv { st2 with
        mStartingUnits := aerase unitName st2.mStartingUnits } :=
      ⟨fun k dd hmem ha => hst2.1 k dd (mem_aerase hmem) ha, hst2.2⟩
    simp only [hw]
    by_cases hfail : d.mRunState ≠ .active
    · rw [if_pos hfail]
      exact ⟨herase, hsub2, hems, by intro hx; exact absurd hx (by simp)⟩
    · rw [if_neg hfail]
      have ha : d.mRunState = .active := not_not.mp hfail
      have hobs := hdobs ha
      refine ⟨⟨herase.1, ?_⟩, hsub2, hems, fun _ => hobs⟩
      intro k dd hmem hact
      rcases mem_ainsert hmem with he | hin
      · obtain ⟨hk, _⟩ := Prod.mk.injEq .. ▸ he
        subst hk
        exact hobs
      · exact herase.2 k dd hin hact

theorem StartInstance_inv (cfg : RunnerConfig) (st : RunnerState)
    (instanceID : Str) (params : RunParameters) (o : StartOracle)
    (h : obsInv st) :
    obsInv (StartInstance cfg st instanceID params o).2.1 ∧
    st.observedActive
      ⊆ (StartInstance cfg st instanceID params o).2.1.observedActive ∧
    (∀ r ∈ (StartInstance cfg st instanceID params o).2.2.flatten,
      r.state = InstanceRunState.active →
        r.unit ∈ (StartInstance cfg st instanceID params o).2.1.observedActive) ∧
    ((StartInstance cfg st instanceID params o).1.mState
        = InstanceRunState.active →
      CreateSystemdUnitName instanceID
        ∈ (StartInstance cfg st instanceID params o).2.1.observedActive) := by
  cases hsp : SetRunParameters cfg st.fs (CreateSystemdUnitName instanceID)
      (fixParams cfg params) o.createDirErr o.writeFileErr with
  | mk e1 fs1 =>
    simp only [StartInstance, hsp]
    by_cases he1 : e1 ≠ .eNone
    · rw [if_pos he1]
      exact ⟨h, fun x hx => hx, by simp, by intro hx; exact absurd hx (by simp)⟩
    · rw [if_neg he1]
      by_cases he2 : o.startUnitErr ≠ .eNone
      · rw [if_pos he2]
        exact ⟨h, fun x hx => hx, by simp, by intro hx; exact absurd hx (by simp)⟩
      · rw [if_neg he2]
        have hg := GetStartingUnitState_inv { st with fs := fs1 }
          (CreateSystemdUnitName instanceID) o h
        exact ⟨hg.1, hg.2.1, hg.2.2.1, hg.2.2.2⟩

theorem StopInstance_inv (cfg : RunnerConfig) (st : RunnerState)
    (instanceID : Str) (o : StopOracle) (h : obsInv st) :
    obsInv (StopInstance cfg st instanceID o).2 ∧
    (StopInstance cfg st instanceID o).2.observedActive = st.observedActive := by
  refine ⟨⟨h.1, ?_⟩, rfl⟩
  intro k d hmem ha
  exact h.2 k d (mem_aerase hmem) ha

/-! ### The system-level invariant and claim C3 -/

/-- Trace invariant: both unit maps and the whole emission history only show
`Active` for units previously observed `active`. -/
def sysInv (s : SysState) : Prop :=
  obsInv s.runner ∧
  ∀ r ∈ s.emitted, r.state = InstanceRunState.active →
    r.unit ∈ s.runner.observedActive

theorem stepEvent_inv (cfg : RunnerConfig) (s : SysState) (e : Event)
    (h : sysInv s) : sysInv (stepEvent cfg s e) := by
  cases e with
  | start id params o =>
    obtain ⟨h1, h2, h3, h4⟩ := StartInstance_inv cfg s.runner id params o h.1
    refine ⟨h1, ?_⟩
    intro r hr ha
    show r.unit ∈ (StartInstance cfg s.runner id params o).2.1.observedActive
    rcases List.mem_append.mp hr with hr' | hr'
    · rcases List.mem_append.mp hr' with hr'' | hr''
      · exact h2 (h.2 r hr'' ha)
      · exact h3 r hr'' ha
    · have : r = ⟨CreateSystemdUnitName id,
          (StartInstance cfg s.runner id params o).1.mState, none⟩ :=
        List.mem_singleton.mp hr'
      subst this
      exact h4 ha
  | stop id o =>
    obtain ⟨h1, h2⟩ := StopInstance_inv cfg s.runner id o h.1
    refine ⟨h1, ?_⟩
    intro r hr ha
    show r.unit ∈ (StopInstance cfg s.runner id o).2.observedActive
    rw [h2]
    exact h.2 r hr ha
  | tick t =>
    by_cases hrun : s.runner.monitorRunning
    · obtain ⟨h1, h2, h3⟩ := monitorStep_inv s.runner t h.1
      simp only [stepEvent, if_pos hrun]
      refine ⟨h1, ?_⟩
      intro r hr ha
      rcases List.mem_append.mp hr with hr' | hr'
      · exact h2 (h.2 r hr' ha)
      · cases hem : (monitorStep s.runner t).2.1 with
        | none => rw [hem] at hr'; simp at hr'
        | some e0 =>
          rw [hem] at hr'
          simp only [Option.toList, List.flatten] at hr'
          rw [List.append_nil] at hr'
          exact h3 e0 hem r hr' ha
    · simp only [stepEvent, if_neg hrun]
      exact h

theorem runTrace_inv (cfg : RunnerConfig) (events : List Event) (s : SysState)
    (h : sysInv s) : sysInv (runTrace cfg events s) := by
  induction events generalizing s with
  | nil => exact h
  | cons e rest ih => exact ih _ (stepEvent_inv cfg s e h)

/-- C3: in every reachable Runner state, a `RunStatus` with state `Active`
is produced for a unit — as a `StartInstance` return value or inside an
`UpdateRunStatus` array — only if a prior supervisor observation
(`GetUnitStatus` or `ListUnits`) reported the unit `active`. -/
theorem C3_active_requires_observation (cfg : RunnerConfig)
    (events : List Event) :
    ∀ r ∈ (runTrace cfg events initSys).emitted,
      r.state = InstanceRunState.active →
        r.unit ∈ (runTrace cfg events initSys).runner.observedActive := by
  have hinit : sysInv initSys :=
    ⟨⟨by intro u d hm; simp [initSys, initialRunnerState] at hm,
      by intro u d hm; simp [initSys, initialRunnerState] at hm⟩,
      by simp [initSys]⟩
  exact (runTrace_inv cfg events initSys hinit).2

/-- Witness for C3: a trace with one successful start (initial observation
`activating`, the monitor then reports `active`); the `Active` status the
start returned is in the history, and the unit is in the observed set. -/
theorem C3_active_requires_observation_witness :
    (⟨CreateSystemdUnitName "id0".toList, InstanceRunState.active, none⟩ : EmitRec)
      ∈ (runTrace testRunnerConfig
        [.start "id0".toList ⟨none, none, none⟩
          ⟨.eNone, .eNone, .eNone, .eNone, .activating, none,
            [Except.ok [⟨CreateSystemdUnitName "id0".toList, .active, none⟩]]⟩]
        initSys).emitted ∧
    CreateSystemdUnitName "id0".toList
      ∈ (runTrace testRunnerConfig
        [.start "id0".toList ⟨none, none, none⟩
          ⟨.eNone, .eNone, .eNone, .eNone, .activating, none,
            [Except.ok [⟨CreateSystemdUnitName "id0".toList, .active, none⟩]]⟩]
        initSys).runner.observedActive :=
  ⟨by decide,
    C3_active_requires_observation testRunnerConfig
      [.start "id0".toList ⟨none, none, none⟩
        ⟨.eNone, .eNone, .eNone, .eNone, .activating, none,
          [Except.ok [⟨CreateSystemdUnitName "id0".toList, .active, none⟩]]⟩]
      ⟨CreateSystemdUnitName "id0".toList, InstanceRunState.active, none⟩
      (by decide) (by decide)⟩

end AosSm
